import Mathlib

/-!
Verification development for the chunk replicator/recovery engine of
`src/src/cc/chunk/Replicator.cc` (QFS chunk server).

The C++ state machine is shallowly embedded: byte offsets and sizes are `Nat`
(they are non-negative throughout the replicator: `mOffset` starts at 0 and
only grows, `mChunkSize` is validated into `[0, CHUNKSIZE]`), status codes and
chunk versions are `Int`, data buffers (`IOBuffer`) are `List Nat` of bytes in
order, and checksum vectors are `List Nat`.  Each C++ handler becomes a pure
function from the replicator state to the successor state paired with the
outward action it performs (enqueue a peer read, submit a disk write, re-enter
the read-completion path, terminate, or die).  External collaborators
(the peer, the disk, the buffer manager, the RS reader) are modelled by the
values their completions deliver.
-/

/-- Modelled from the spec: `CHECKSUM_BLOCKSIZE` comes from `kfsio/checksum.h`
which is not under `src/`; the spec fixes `CHECKSUM_BLOCK_SIZE = 64 KiB`. -/
def CHECKSUM_BLOCKSIZE : Nat := 64 * 1024

/-- Modelled from the spec: `CHUNKSIZE` comes from a chunk-layout header that
is not under `src/`; the spec fixes `CHUNK_SIZE = 64 MiB`. -/
def CHUNKSIZE : Nat := 64 * 1024 * 1024

/-- `kDefaultReplicationReadSize` (Replicator.cc:202-204): 1 MiB rounded up to
a multiple of `CHECKSUM_BLOCKSIZE`. -/
def kDefaultReplicationReadSize : Nat :=
  ((1 <<< 20) + CHECKSUM_BLOCKSIZE - 1) / CHECKSUM_BLOCKSIZE * CHECKSUM_BLOCKSIZE

/-- POSIX errno `EIO` as on Linux. -/
def Eio : Int := 5
/-- POSIX errno `EINVAL`. -/
def Einval : Int := 22
/-- POSIX errno `EFAULT`. -/
def Efault : Int := 14
/-- POSIX errno `ENOMEM`. -/
def Enomem : Int := 12
/-- POSIX errno `EEXIST`. -/
def Eexist : Int := 17
/-- POSIX errno `ECANCELED`. -/
def Ecanceled : Int := 125
/-- POSIX errno `ETIMEDOUT`. -/
def Etimedout : Int := 110
/-- Modelled from the spec: `EBADCKSUM` is the KFS BadChecksum errno declared
in `common/kfstypes.h`, which is not under `src/`; only its identity (a fixed
positive code distinct from the other errnos) matters to the replicator. -/
def EBADCKSUM : Int := 74

/-- Mirror of the mutable fields of `ReadOp` used by `ReplicatorImpl`. -/
structure ReadOp where
  offset : Nat
  numBytes : Nat
  numBytesIo : Nat
  status : Int
  dataBuf : List Nat
  checksum : List Nat
  skipVerifyDiskChecksumFlag : Bool
deriving DecidableEq, Repr

/-- Mirror of the mutable fields of `WriteOp` used by `ReplicatorImpl`. -/
structure WriteOp where
  offset : Nat
  numBytes : Nat
  numBytesIo : Nat
  status : Int
  dataBuf : List Nat
  checksums : List Nat
deriving DecidableEq, Repr

/-- The direct-replication part of `ReplicatorImpl`'s state
(Replicator.cc:137-158). -/
structure DirectReplicator where
  mOffset : Nat
  mChunkSize : Nat
  mReadOp : ReadOp
  mWriteOp : WriteOp
  mDone : Bool
  mCancelFlag : Bool
deriving DecidableEq, Repr

/-- The outward action a handler performs when it returns. -/
inductive DirectStep where
  /-- `Terminate(status)` was invoked with this status. -/
  | terminate (status : Int)
  /-- `mPeer->Enqueue(&mReadOp)`: a peer read was issued. -/
  | enqueueRead
  /-- `gChunkManager.WriteChunk(&mWriteOp, ...)`: a disk write was submitted. -/
  | submitWrite
  /-- `HandleReadDone(EVENT_CMD_DONE, &mReadOp)` re-entered directly
  from `HandleWriteDone` with the carried tail. -/
  | reenterReadDone
  /-- `die(...)`: fatal invariant violation, the process aborts. -/
  | fatal
deriving DecidableEq, Repr

/-- `ReplicatorImpl::Read` (Replicator.cc:461-495). -/
def ReplicatorImpl.Read (s : DirectReplicator) : DirectReplicator × DirectStep :=
  if s.mChunkSize ≤ s.mOffset then
    ({ s with mDone := decide (s.mOffset = s.mChunkSize) },
     .terminate (if s.mOffset = s.mChunkSize then 0 else -Eio))
  else
    ({ s with mReadOp := { s.mReadOp with
        skipVerifyDiskChecksumFlag :=
          if s.mOffset % CHECKSUM_BLOCKSIZE ≠ 0 then false
          else s.mReadOp.skipVerifyDiskChecksumFlag,
        checksum := [],
        status := 0,
        offset := s.mOffset,
        numBytesIo := 0,
        numBytes := min (s.mChunkSize - s.mOffset) kDefaultReplicationReadSize,
        dataBuf := [] } },
     .enqueueRead)

/-- The terminal branch of `ReplicatorImpl::HandleReadDone`
(Replicator.cc:537-540): `mDone = mOffset == mChunkSize && 0 <= status;
Terminate(mDone ? 0 : status)`. -/
def ReplicatorImpl.readDoneTerminate (s : DirectReplicator) :
    DirectReplicator × DirectStep :=
  ({ s with mDone := decide (s.mOffset = s.mChunkSize) && decide (0 ≤ s.mReadOp.status) },
   .terminate (if s.mOffset = s.mChunkSize ∧ 0 ≤ s.mReadOp.status then 0
               else s.mReadOp.status))

/-- The write-preparation part of `ReplicatorImpl::HandleReadDone`
(Replicator.cc:543-595), reached with `0 ≤ status` and `mOffset < mChunkSize`:
validate the completion, align the write to checksum blocks — splitting off a
sub-block tail when the read reaches exactly `mChunkSize` — and submit the
write. -/
def ReplicatorImpl.readDoneWrite (s : DirectReplicator) :
    DirectReplicator × DirectStep :=
  if s.mOffset % CHECKSUM_BLOCKSIZE ≠ 0 ∨
      (s.mReadOp.checksum ≠ [] ∧
        s.mReadOp.checksum.length ≠
          (s.mReadOp.dataBuf.length + CHECKSUM_BLOCKSIZE - 1) / CHECKSUM_BLOCKSIZE) then
    (s, .fatal)
  else if CHECKSUM_BLOCKSIZE < s.mReadOp.dataBuf.length ∧
      s.mReadOp.dataBuf.length % CHECKSUM_BLOCKSIZE ≠ 0 ∧
      s.mOffset + s.mReadOp.dataBuf.length = s.mChunkSize then
    -- the split case: `numBytes = numRd % kChecksumBlockSize` trailing bytes
    -- and the last checksum are retained in `mReadOp`, the block-aligned
    -- first part is written now (Replicator.cc:565-583).
    ({ s with
        mWriteOp :=
          { offset := s.mOffset,
            numBytes := s.mReadOp.dataBuf.length -
              s.mReadOp.dataBuf.length % CHECKSUM_BLOCKSIZE,
            numBytesIo := 0,
            status := 0,
            dataBuf := s.mReadOp.dataBuf.take (s.mReadOp.dataBuf.length -
              s.mReadOp.dataBuf.length % CHECKSUM_BLOCKSIZE),
            checksums := s.mReadOp.checksum.dropLast },
        mReadOp := { s.mReadOp with
            dataBuf := s.mReadOp.dataBuf.drop (s.mReadOp.dataBuf.length -
              s.mReadOp.dataBuf.length % CHECKSUM_BLOCKSIZE),
            offset := s.mOffset + (s.mReadOp.dataBuf.length -
              s.mReadOp.dataBuf.length % CHECKSUM_BLOCKSIZE),
            numBytesIo := s.mReadOp.dataBuf.length % CHECKSUM_BLOCKSIZE,
            numBytes := s.mReadOp.dataBuf.length % CHECKSUM_BLOCKSIZE,
            checksum :=
              if s.mReadOp.checksum = [] then []
              else [s.mReadOp.checksum.getLastD 0] } },
     .submitWrite)
  else if CHECKSUM_BLOCKSIZE < s.mReadOp.dataBuf.length then
    ({ s with
        mWriteOp :=
          { offset := s.mOffset,
            numBytes := s.mReadOp.dataBuf.length -
              s.mReadOp.dataBuf.length % CHECKSUM_BLOCKSIZE,
            numBytesIo := 0,
            status := 0,
            dataBuf := s.mReadOp.dataBuf,
            checksums := s.mReadOp.checksum },
        mReadOp := { s.mReadOp with dataBuf := [] } },
     .submitWrite)
  else
    ({ s with
        mWriteOp :=
          { offset := s.mOffset,
            numBytes := s.mReadOp.dataBuf.length,
            numBytesIo := 0,
            status := 0,
            dataBuf := s.mReadOp.dataBuf,
            checksums := s.mReadOp.checksum },
        mReadOp := { s.mReadOp with dataBuf := [] } },
     .submitWrite)

/-- `ReplicatorImpl::HandleReadDone` (Replicator.cc:497-596). -/
def ReplicatorImpl.HandleReadDone (s : DirectReplicator) :
    DirectReplicator × DirectStep :=
  if s.mCancelFlag then (s, .terminate Ecanceled)
  else if 0 ≤ s.mReadOp.status then
    -- short read check (Replicator.cc:527-536); a short read sets
    -- `status = -EINVAL`, which the following `status < 0 || ...` test
    -- (Replicator.cc:537) then routes to the terminate branch
    if s.mReadOp.dataBuf.length < s.mReadOp.numBytes ∧
        s.mOffset + s.mReadOp.dataBuf.length < s.mChunkSize then
      ReplicatorImpl.readDoneTerminate
        { s with mReadOp := { s.mReadOp with status := -Einval } }
    else if s.mChunkSize ≤ s.mOffset then
      ReplicatorImpl.readDoneTerminate s
    else
      ReplicatorImpl.readDoneWrite s
  else if s.mReadOp.skipVerifyDiskChecksumFlag ∧ s.mReadOp.status = -EBADCKSUM then
    -- BadChecksum with the skip-verify optimization on: retry once with
    -- disk-checksum verification (Replicator.cc:514-526)
    ReplicatorImpl.Read
      { s with mReadOp := { s.mReadOp with skipVerifyDiskChecksumFlag := false } }
  else
    ReplicatorImpl.readDoneTerminate s

/-- `ReplicatorImpl::HandleWriteDone` (Replicator.cc:598-629). -/
def ReplicatorImpl.HandleWriteDone (s : DirectReplicator) :
    DirectReplicator × DirectStep :=
  if s.mCancelFlag ∨ s.mWriteOp.status < 0 then
    (s, .terminate (if s.mCancelFlag then Ecanceled else s.mWriteOp.status))
  else if s.mReadOp.offset = s.mOffset + s.mWriteOp.numBytesIo ∧
      s.mReadOp.dataBuf ≠ [] then
    ({ s with mOffset := s.mOffset + s.mWriteOp.numBytesIo }, .reenterReadDone)
  else
    ReplicatorImpl.Read { s with mOffset := s.mOffset + s.mWriteOp.numBytesIo }

/-- The state of a freshly started direct replication right after the size
probe established `chunkSize` (`HandleStartDone`, Replicator.cc:391-458):
`mOffset = 0`, both ops reset, not done, not cancelled. -/
def initialDirect (chunkSize : Nat) : DirectReplicator :=
  { mOffset := 0,
    mChunkSize := chunkSize,
    mReadOp :=
      { offset := 0, numBytes := 0, numBytesIo := 0, status := 0,
        dataBuf := [], checksum := [], skipVerifyDiskChecksumFlag := true },
    mWriteOp :=
      { offset := 0, numBytes := 0, numBytesIo := 0, status := 0,
        dataBuf := [], checksums := [] },
    mDone := false,
    mCancelFlag := false }

/-- A peer read completion that returns exactly the requested bytes with one
checksum per (possibly partial) checksum block and status 0 (the contract of
the peer `ReadOp` in §4.4 of the spec). -/
def peerFill (s : DirectReplicator) : DirectReplicator :=
  { s with mReadOp := { s.mReadOp with
      dataBuf := List.replicate s.mReadOp.numBytes 0,
      checksum := List.replicate
        ((s.mReadOp.numBytes + CHECKSUM_BLOCKSIZE - 1) / CHECKSUM_BLOCKSIZE) 0,
      status := 0,
      numBytesIo := s.mReadOp.numBytes } }

/-- A disk write completion that wrote all requested bytes successfully. -/
def diskWriteOk (s : DirectReplicator) : DirectReplicator :=
  { s with mWriteOp := { s.mWriteOp with
      status := 0, numBytesIo := s.mWriteOp.numBytes } }

/-- Expected state right after `HandleReadDone` takes the split branch:
the block-aligned first part of the read sits in `mWriteOp` (checksums minus
the last), the trailing `numRd % CHECKSUM_BLOCKSIZE` bytes plus the last
checksum are retained in `mReadOp` as a synthetic next read. -/
def splitS1 (s : DirectReplicator) : DirectReplicator :=
  { s with
      mWriteOp :=
        { offset := s.mOffset,
          numBytes := s.mReadOp.dataBuf.length -
            s.mReadOp.dataBuf.length % CHECKSUM_BLOCKSIZE,
          numBytesIo := 0,
          status := 0,
          dataBuf := s.mReadOp.dataBuf.take (s.mReadOp.dataBuf.length -
            s.mReadOp.dataBuf.length % CHECKSUM_BLOCKSIZE),
          checksums := s.mReadOp.checksum.dropLast },
      mReadOp := { s.mReadOp with
          dataBuf := s.mReadOp.dataBuf.drop (s.mReadOp.dataBuf.length -
            s.mReadOp.dataBuf.length % CHECKSUM_BLOCKSIZE),
          offset := s.mOffset + (s.mReadOp.dataBuf.length -
            s.mReadOp.dataBuf.length % CHECKSUM_BLOCKSIZE),
          numBytesIo := s.mReadOp.dataBuf.length % CHECKSUM_BLOCKSIZE,
          numBytes := s.mReadOp.dataBuf.length % CHECKSUM_BLOCKSIZE,
          checksum := [s.mReadOp.checksum.getLastD 0] } }

/-- Expected state after the aligned-part write completes: `mOffset` advanced
to the prefix end, which equals the retained read's offset. -/
def splitS2 (s : DirectReplicator) : DirectReplicator :=
  { diskWriteOk (splitS1 s) with
      mOffset := (splitS1 s).mOffset + (splitS1 s).mWriteOp.numBytes }

/-- Expected state after re-entering `HandleReadDone` with the carried tail:
the tail bytes are submitted as a write at the prefix end offset. -/
def splitS3 (s : DirectReplicator) : DirectReplicator :=
  { splitS2 s with
      mWriteOp :=
        { offset := (splitS2 s).mOffset,
          numBytes := (splitS2 s).mReadOp.dataBuf.length,
          numBytesIo := 0, status := 0,
          dataBuf := (splitS2 s).mReadOp.dataBuf,
          checksums := (splitS2 s).mReadOp.checksum },
      mReadOp := { (splitS2 s).mReadOp with dataBuf := [] } }

/-- Expected terminal state after the tail write completes: `mOffset` reaches
exactly `mChunkSize` and the replicator terminates with status 0, done. -/
def splitS4 (s : DirectReplicator) : DirectReplicator :=
  { { diskWriteOk (splitS3 s) with
        mOffset := (splitS3 s).mOffset + (splitS3 s).mWriteOp.numBytes } with
      mDone := true }

/-- S2 scenario chunk size: 1 MiB + 17 bytes. -/
def s2ExampleChunkSize : Nat := 1024 * 1024 + 17

/-- S2: state after the first `Read` issues a 1 MiB peer read. -/
def s2R1 : DirectReplicator :=
  { mOffset := 0, mChunkSize := 1048593,
    mReadOp :=
      { offset := 0, numBytes := 1048576, numBytesIo := 0,
        status := 0, dataBuf := [], checksum := [],
        skipVerifyDiskChecksumFlag := true },
    mWriteOp :=
      { offset := 0, numBytes := 0, numBytesIo := 0, status := 0,
        dataBuf := [], checksums := [] },
    mDone := false, mCancelFlag := false }

/-- S2: state after the first read completion submits the aligned
1 MiB write at offset 0. -/
def s2R2 : DirectReplicator :=
  { mOffset := 0, mChunkSize := 1048593,
    mReadOp :=
      { offset := 0, numBytes := 1048576, numBytesIo := 1048576,
        status := 0, dataBuf := [], checksum := List.replicate 16 0,
        skipVerifyDiskChecksumFlag := true },
    mWriteOp :=
      { offset := 0, numBytes := 1048576, numBytesIo := 0, status := 0,
        dataBuf := List.replicate 1048576 0,
        checksums := List.replicate 16 0 },
    mDone := false, mCancelFlag := false }

/-- S2: state after the 1 MiB write completes and the 17-byte read is
issued at offset 1 MiB. -/
def s2R3 : DirectReplicator :=
  { mOffset := 1048576, mChunkSize := 1048593,
    mReadOp :=
      { offset := 1048576, numBytes := 17, numBytesIo := 0, status := 0,
        dataBuf := [], checksum := [], skipVerifyDiskChecksumFlag := true },
    mWriteOp :=
      { offset := 0, numBytes := 1048576, numBytesIo := 1048576, status := 0,
        dataBuf := List.replicate 1048576 0,
        checksums := List.replicate 16 0 },
    mDone := false, mCancelFlag := false }

/-- S2: state after the second read completion submits the 17-byte write
at offset 1 MiB. -/
def s2R4 : DirectReplicator :=
  { mOffset := 1048576, mChunkSize := 1048593,
    mReadOp :=
      { offset := 1048576, numBytes := 17, numBytesIo := 17, status := 0,
        dataBuf := [], checksum := List.replicate 1 0,
        skipVerifyDiskChecksumFlag := true },
    mWriteOp :=
      { offset := 1048576, numBytes := 17, numBytesIo := 0, status := 0,
        dataBuf := List.replicate 17 0, checksums := List.replicate 1 0 },
    mDone := false, mCancelFlag := false }

/-- S2: terminal state: `mOffset` reaches exactly `chunkSize`, `mDone` set. -/
def s2R5 : DirectReplicator :=
  { mOffset := 1048593, mChunkSize := 1048593,
    mReadOp :=
      { offset := 1048576, numBytes := 17, numBytesIo := 17, status := 0,
        dataBuf := [], checksum := List.replicate 1 0,
        skipVerifyDiskChecksumFlag := true },
    mWriteOp :=
      { offset := 1048576, numBytes := 17, numBytesIo := 17, status := 0,
        dataBuf := List.replicate 17 0, checksums := List.replicate 1 0 },
    mDone := true, mCancelFlag := false }

/-- A concrete state hitting the tail-split path: a read of one checksum
block plus 17 bytes that reaches exactly `chunkSize = 65553`. -/
def c1WitnessState : DirectReplicator :=
  { mOffset := 0, mChunkSize := 65553,
    mReadOp :=
      { offset := 0, numBytes := 65553, numBytesIo := 65553, status := 0,
        dataBuf := List.replicate 65553 0, checksum := List.replicate 2 0,
        skipVerifyDiskChecksumFlag := true },
    mWriteOp :=
      { offset := 0, numBytes := 0, numBytesIo := 0, status := 0,
        dataBuf := [], checksums := [] },
    mDone := false, mCancelFlag := false }

/-- A concrete mid-loop state whose pending read failed with BadChecksum
while the skip-disk-verify optimization was on. -/
def c2RetryState : DirectReplicator :=
  { mOffset := 0, mChunkSize := 100,
    mReadOp :=
      { offset := 0, numBytes := 100, numBytesIo := 0, status := -EBADCKSUM,
        dataBuf := [], checksum := [], skipVerifyDiskChecksumFlag := true },
    mWriteOp :=
      { offset := 0, numBytes := 0, numBytesIo := 0, status := 0,
        dataBuf := [], checksums := [] },
    mDone := false, mCancelFlag := false }

/-- A concrete mid-loop state whose retried read (disk verify enabled,
`skipVerifyDiskChecksumFlag = false`) failed again. -/
def c2FailState : DirectReplicator :=
  { mOffset := 0, mChunkSize := 100,
    mReadOp :=
      { offset := 0, numBytes := 100, numBytesIo := 0, status := -7,
        dataBuf := [], checksum := [], skipVerifyDiskChecksumFlag := false },
    mWriteOp :=
      { offset := 0, numBytes := 0, numBytesIo := 0, status := 0,
        dataBuf := [], checksums := [] },
    mDone := false, mCancelFlag := false }

/-- `res` as computed by `ReplicatorImpl::Terminate` (Replicator.cc:652) on a
non-done (or cancelled) exit: `status < 0 ? status : (status == 0 ? -1 :
-status)`. -/
def ReplicatorImpl.TerminateNonDoneRes (status : Int) : Int :=
  if status < 0 then status else if status = 0 then -1 else -status

/-- What `ReplicatorImpl::Terminate` does next. -/
inductive TerminateStep where
  /-- the done path submits `ChangeChunkVers` (finalize) and waits for
  `HandleReplicationDone` to be called back with the store's status. -/
  | changeChunkVers (chunkVersion : Int)
  /-- every other path calls `HandleReplicationDone` at once with `res`. -/
  | replicationDone (res : Int)
deriving DecidableEq, Repr

/-- `ReplicatorImpl::Terminate` (Replicator.cc:631-655). -/
def ReplicatorImpl.Terminate (mDone mCancelFlag : Bool) (mChunkVersion : Int)
    (status : Int) : TerminateStep :=
  if mDone ∧ ¬ mCancelFlag then .changeChunkVers mChunkVersion
  else .replicationDone (ReplicatorImpl.TerminateNonDoneRes status)

/-- The result fields of the `ReplicateChunkOp` mutated by
`HandleReplicationDone` before `SubmitOpResponse`. -/
structure ReplicateChunkOpResult where
  status : Int
  chunkVersion : Int
deriving DecidableEq, Repr

/-- `ReplicatorImpl::HandleReplicationDone` (Replicator.cc:657-708), restricted
to the op mutation it performs: `mOwner->status = status >= 0 ? 0 : status`
(line 663) and `mOwner->chunkVersion = (! mCancelFlag && status >= 0) ?
mChunkVersion : -1` (line 685).  Counter updates and logging are elided. -/
def ReplicatorImpl.HandleReplicationDone (mCancelFlag : Bool)
    (mChunkVersion : Int) (status : Int) : ReplicateChunkOpResult :=
  { status := if 0 ≤ status then 0 else status,
    chunkVersion := if mCancelFlag = false ∧ 0 ≤ status then mChunkVersion else -1 }

/-- The fields of a registered replicator that `CancelChunkReplication`
inspects: its `mChunkVersion` and its owner op's `targetVersion`
(`none` models a null `mOwner`). -/
structure RegReplicator where
  mChunkVersion : Int
  ownerTargetVersion : Option Int
deriving DecidableEq, Repr

/-- The effective target version of a registered replicator
(Replicator.cc:241-243): the owner's explicit `targetVersion` when that is
`≥ 0`, else the replicator's `mChunkVersion`; `none` when `mOwner` is null. -/
def RegReplicator.effectiveTargetVersion (r : RegReplicator) : Option Int :=
  r.ownerTargetVersion.map (fun tv => if tv < 0 then r.mChunkVersion else tv)

/-- `sInFlightReplications`: the process-wide registry, a map from chunk id to
a (possibly null) replicator pointer, modelled as an association list with
unique keys. -/
abbrev InFlightReplications := List (Int × Option RegReplicator)

/-- `ReplicatorImpl::CancelChunkReplication` (Replicator.cc:233-250).
Returns whether a cancel occurred, the registry afterwards, and the
replicator that `Cancel()` was invoked on (if any). -/
def ReplicatorImpl.CancelChunkReplication (reg : InFlightReplications)
    (chunkId : Int) (targetVersion : Int) :
    Bool × InFlightReplications × Option RegReplicator :=
  match reg.lookup chunkId with
  | none => (false, reg, none)
  | some none => (false, reg, none)
  | some (some r) =>
    if decide (0 ≤ targetVersion) &&
        (match r.ownerTargetVersion with
         | none => true
         | some tv =>
           decide ((if tv < 0 then r.mChunkVersion else tv) ≠ targetVersion)) then
      (false, reg, none)
    else
      (true, reg.eraseP (fun p => p.1 == chunkId), some r)

/-- `Replicator::Cancel` (Replicator.cc:1577-1581): forwards to
`ReplicatorImpl::CancelChunkReplication`. -/
def Replicator.Cancel (reg : InFlightReplications) (chunkId : Int)
    (targetVersion : Int) : Bool × InFlightReplications × Option RegReplicator :=
  ReplicatorImpl.CancelChunkReplication reg chunkId targetVersion

/-- The registered replicator of the C3 counterexample: live, with
`mChunkVersion = 5` and an owner whose `targetVersion = -1`, so its effective
target version is 5. -/
def c3Entry : RegReplicator :=
  { mChunkVersion := 5, ownerTargetVersion := some (-1) }

/-- A registry holding only `c3Entry` under chunk id 1. -/
def c3Registry : InFlightReplications := [(1, some c3Entry)]

/-- `kChunkHeaderSize` (Replicator.cc:336): `16 << 10`. -/
def kChunkHeaderSize : Nat := 16 * 1024

/-- `ReplicatorImpl::GetBufferBytesRequired` (Replicator.cc:362-366). -/
def ReplicatorImpl.GetBufferBytesRequired : Nat := kDefaultReplicationReadSize

/-- `RSReplicatorImpl::GetBufferBytesRequired` (Replicator.cc:931-934):
`mReadSize * (mOwner ? mOwner->numStripes + 1 : 0)`. -/
def RSReplicatorImpl.GetBufferBytesRequired (mReadSize : Nat)
    (ownerNumStripes : Option Nat) : Nat :=
  match ownerNumStripes with
  | some numStripes => mReadSize * (numStripes + 1)
  | none => 0

/-- How `ReplicatorImpl::Run`'s buffer-admission part ends. -/
inductive RunStep where
  /-- `Terminate(status)` was invoked. -/
  | terminated (status : Int)
  /-- the reservation was granted and `Start()` was called. -/
  | started
  /-- the request was queued; `Granted` will call `Start()` later. -/
  | waitingForBuffers
deriving DecidableEq, Repr

/-- The buffer-admission part of `ReplicatorImpl::Run` (Replicator.cc:336-360):
request `max(kChunkHeaderSize, GetBufferBytesRequired())` bytes; over-quota
terminates with `ENOMEM` before the size probe, otherwise start now or wait
for the grant.  The buffer manager's two predicates are parameters.  Returns
the requested byte count and the outcome. -/
def ReplicatorImpl.Run (bytesRequired : Nat) (isOverQuota : Nat → Bool)
    (getForDiskIoOk : Nat → Bool) : Nat × RunStep :=
  if isOverQuota (max kChunkHeaderSize bytesRequired) then
    (max kChunkHeaderSize bytesRequired, .terminated Enomem)
  else if getForDiskIoOk (max kChunkHeaderSize bytesRequired) then
    (max kChunkHeaderSize bytesRequired, .started)
  else
    (max kChunkHeaderSize bytesRequired, .waitingForBuffers)

/-- Modelled from the spec: `KFS_STRIPED_FILE_TYPE_RS` is an enum constant
from `common/kfstypes.h`, which is not under `src/`; only its identity
matters to the validation. -/
def KFS_STRIPED_FILE_TYPE_RS : Int := 2

/-- Modelled from the spec: the stripe-geometry constants referenced by
`Replicator::Run`'s validation (`CHUNKSIZE`, `KFS_MIN_STRIPE_SIZE`,
`KFS_MAX_STRIPE_SIZE`, `KFS_STRIPE_ALIGNMENT`) live in headers not under
`src/`; they are carried as parameters here. -/
structure RSLimits where
  KFS_CHUNKSIZE : Int
  KFS_MIN_STRIPE_SIZE : Int
  KFS_MAX_STRIPE_SIZE : Int
  KFS_STRIPE_ALIGNMENT : Int
deriving DecidableEq, Repr

/-- The `ReplicateChunkOp` fields inspected by `Replicator::Run`'s routing and
RS-parameter validation (Replicator.cc:1604-1724). -/
structure ReplicateChunkOpReq where
  chunkOffset : Int
  striperType : Int
  numStripes : Int
  numRecoveryStripes : Int
  stripeSize : Int
  locationPort : Int
  locationIsValid : Bool
deriving DecidableEq, Repr

/-- The RS-recovery parameter validation of `Replicator::Run`
(Replicator.cc:1700-1709), as the disjunction that rejects the request.
`%` is Lean's Euclidean `emod` while C++ `%` truncates; the two agree on all
operands reachable here because a negative `chunkOffset` is rejected by the
first disjunct and non-positive stripe sizes by the size bounds (see the C7
theorem's positivity hypotheses). -/
def rsRecoveryRequestInvalid (L : RSLimits) (op : ReplicateChunkOpReq) : Bool :=
  decide (op.chunkOffset < 0) ||
  decide (op.chunkOffset % L.KFS_CHUNKSIZE ≠ 0) ||
  decide (op.striperType ≠ KFS_STRIPED_FILE_TYPE_RS) ||
  decide (op.numStripes ≤ 0) ||
  decide (op.numRecoveryStripes ≤ 0) ||
  decide (op.stripeSize < L.KFS_MIN_STRIPE_SIZE) ||
  decide (L.KFS_MAX_STRIPE_SIZE < op.stripeSize) ||
  decide (L.KFS_CHUNKSIZE % op.stripeSize ≠ 0) ||
  decide (op.stripeSize % L.KFS_STRIPE_ALIGNMENT ≠ 0) ||
  decide (op.locationPort ≤ 0)

/-- Which path `Replicator::Run` takes for a request. -/
inductive RunRoute where
  /-- malformed chunk-access header: `-EINVAL`, submit without a replicator. -/
  | malformedHeader
  /-- `op.location` valid: direct replication. -/
  | direct
  /-- RS validation failed: `-EINVAL`, submit without a replicator
  (Replicator.cc:1710-1714 with `impl = 0` at 1722-1724). -/
  | rsInvalid
  /-- RS validation passed: `RSReplicatorImpl::Create` is attempted. -/
  | rsCreate
deriving DecidableEq, Repr

/-- The routing of `Replicator::Run` (Replicator.cc:1604-1724): parse the
access header into `(token, key)` (both empty or both non-empty), route to
direct mode when `op.location` is valid, else validate the RS parameters.
Returns the route and the status stored into `op.status` on the immediate
error paths. -/
def Replicator.Run (tokenLen keyLen : Nat) (L : RSLimits)
    (op : ReplicateChunkOpReq) : RunRoute × Option Int :=
  if (decide (0 < keyLen) != decide (0 < tokenLen)) then
    (.malformedHeader, some (-Einval))
  else if op.locationIsValid then
    (.direct, none)
  else if rsRecoveryRequestInvalid L op then
    (.rsInvalid, some (-Einval))
  else
    (.rsCreate, none)

/-- Concrete stripe-geometry limits for the C7 witness (the spec's 64 MiB
chunk with 4 KiB alignment). -/
def c7Limits : RSLimits :=
  { KFS_CHUNKSIZE := 67108864, KFS_MIN_STRIPE_SIZE := 4096,
    KFS_MAX_STRIPE_SIZE := 67108864, KFS_STRIPE_ALIGNMENT := 4096 }

/-- A concrete RS recovery request with `numStripes = 0`, violating the
validation. -/
def c7BadOp : ReplicateChunkOpReq :=
  { chunkOffset := 0, striperType := 2, numStripes := 0,
    numRecoveryStripes := 3, stripeSize := 65536, locationPort := 100,
    locationIsValid := false }

/-- `Properties`: a key-value configuration store, modelled as an association
list (string key, integer value). -/
abbrev Properties := List (String × Int)

/-- `Properties::getValue(key, default)`. -/
def Properties.getValue (props : Properties) (key : String) (dflt : Int) : Int :=
  (props.lookup key).getD dflt

/-- The two static options set by the last part of
`RSReplicatorImpl::SetParameters` relevant to claim C8. -/
structure RSReaderMetaParams where
  sRSReaderMetaIdleTimeoutSec : Int
  sRSReaderMetaResetConnectionOnOpTimeoutFlag : Bool
deriving DecidableEq, Repr

/-- `RSReplicatorImpl::SetParameters`, lines 771-778: both
`sRSReaderMetaIdleTimeoutSec` and
`sRSReaderMetaResetConnectionOnOpTimeoutFlag` are read from the single key
`chunkServer.rsReader.meta.idleTimeoutSec`. -/
def RSReplicatorImpl.SetMetaTimeoutParameters (props : Properties)
    (cur : RSReaderMetaParams) : RSReaderMetaParams :=
  { sRSReaderMetaIdleTimeoutSec :=
      Properties.getValue props "chunkServer.rsReader.meta.idleTimeoutSec"
        cur.sRSReaderMetaIdleTimeoutSec,
    sRSReaderMetaResetConnectionOnOpTimeoutFlag :=
      decide (Properties.getValue props "chunkServer.rsReader.meta.idleTimeoutSec"
        (if cur.sRSReaderMetaResetConnectionOnOpTimeoutFlag then 1 else 0) ≠ 0) }

/-- The `RSReplicatorImpl` state read by the `readOkFlag` part of the reader
`Done` upcall (Replicator.cc:1060-1105). -/
structure RSDoneState where
  mOffset : Nat
  mChunkSize : Nat
  mReadSize : Nat
  mReadTail : List Nat
  readOpOffset : Nat
  readOpNumBytes : Nat
deriving DecidableEq, Repr

/-- What the `readOkFlag` part of `RSReplicatorImpl::Done` leaves behind:
the write buffer (`mReadOp.dataBuf`), `mReadOp.numBytes`, the retained
`mReadTail`, the (possibly updated) `mChunkSize`, whether `mReader.Close()`
was called, whether checksums were computed, and whether `HandleRead()` was
re-issued instead of completing. -/
structure RSDoneOutcome where
  writeBuf : List Nat
  numBytes : Nat
  mReadTail : List Nat
  mChunkSize : Nat
  closeReader : Bool
  checksumComputed : Bool
  reissueRead : Bool
deriving DecidableEq, Repr

/-- The `readOkFlag = true` branch of `RSReplicatorImpl::Done`
(Replicator.cc:1065-1105): on end-of-chunk, concatenate `mReadTail` with the
new bytes, set `mChunkSize = mOffset + numBytes` and close the reader;
otherwise move whole checksum blocks (first from `mReadTail`, then from the
new buffer) into the write buffer and retain the rest in `mReadTail`; when
nothing reaches a whole block, accumulate and re-issue `HandleRead`.
Checksums are computed only when the buffer is non-empty and both
`mReadOp.offset` and `mReadOp.numBytes` are multiples of
`CHECKSUM_BLOCKSIZE` (lines 1101-1105). -/
def RSReplicatorImpl.DoneReadOk (s : RSDoneState) (inBuffer : List Nat) :
    RSDoneOutcome :=
  if inBuffer.length < s.mReadSize ∨
      s.mChunkSize ≤ s.mOffset + s.mReadTail.length + s.mReadSize then
    { writeBuf := s.mReadTail ++ inBuffer,
      numBytes := (s.mReadTail ++ inBuffer).length,
      mReadTail := [],
      mChunkSize := s.mOffset + (s.mReadTail ++ inBuffer).length,
      closeReader := true,
      checksumComputed :=
        decide (0 < (s.mReadTail ++ inBuffer).length) &&
        !decide (s.mReadTail ++ inBuffer = []) &&
        decide (s.readOpOffset % CHECKSUM_BLOCKSIZE = 0) &&
        decide ((s.mReadTail ++ inBuffer).length % CHECKSUM_BLOCKSIZE = 0),
      reissueRead := false }
  else if (s.mReadTail.length + inBuffer.length) /
      CHECKSUM_BLOCKSIZE * CHECKSUM_BLOCKSIZE = 0 then
    { writeBuf := [],
      numBytes := s.readOpNumBytes,
      mReadTail := s.mReadTail ++ inBuffer,
      mChunkSize := s.mChunkSize,
      closeReader := false,
      checksumComputed := false,
      reissueRead := true }
  else
    { writeBuf :=
        s.mReadTail.take (min ((s.mReadTail.length + inBuffer.length) /
            CHECKSUM_BLOCKSIZE * CHECKSUM_BLOCKSIZE) s.mReadTail.length) ++
          inBuffer.take ((s.mReadTail.length + inBuffer.length) /
            CHECKSUM_BLOCKSIZE * CHECKSUM_BLOCKSIZE -
            min ((s.mReadTail.length + inBuffer.length) /
              CHECKSUM_BLOCKSIZE * CHECKSUM_BLOCKSIZE) s.mReadTail.length),
      numBytes := (s.mReadTail.length + inBuffer.length) /
        CHECKSUM_BLOCKSIZE * CHECKSUM_BLOCKSIZE,
      mReadTail :=
        s.mReadTail.drop (min ((s.mReadTail.length + inBuffer.length) /
            CHECKSUM_BLOCKSIZE * CHECKSUM_BLOCKSIZE) s.mReadTail.length) ++
          inBuffer.drop ((s.mReadTail.length + inBuffer.length) /
            CHECKSUM_BLOCKSIZE * CHECKSUM_BLOCKSIZE -
            min ((s.mReadTail.length + inBuffer.length) /
              CHECKSUM_BLOCKSIZE * CHECKSUM_BLOCKSIZE) s.mReadTail.length),
      mChunkSize := s.mChunkSize,
      closeReader := false,
      checksumComputed :=
        decide (0 < (s.mReadTail.length + inBuffer.length) /
          CHECKSUM_BLOCKSIZE * CHECKSUM_BLOCKSIZE) &&
        !decide (s.mReadTail.take (min ((s.mReadTail.length + inBuffer.length) /
            CHECKSUM_BLOCKSIZE * CHECKSUM_BLOCKSIZE) s.mReadTail.length) ++
          inBuffer.take ((s.mReadTail.length + inBuffer.length) /
            CHECKSUM_BLOCKSIZE * CHECKSUM_BLOCKSIZE -
            min ((s.mReadTail.length + inBuffer.length) /
              CHECKSUM_BLOCKSIZE * CHECKSUM_BLOCKSIZE) s.mReadTail.length) = []) &&
        decide (s.readOpOffset % CHECKSUM_BLOCKSIZE = 0) &&
        decide ((s.mReadTail.length + inBuffer.length) /
          CHECKSUM_BLOCKSIZE * CHECKSUM_BLOCKSIZE % CHECKSUM_BLOCKSIZE = 0),
      reissueRead := false }

/-- A concrete RS `Done` state for the C4 witness: a 10-byte carried tail,
one-block read size, far from end of chunk. -/
def c4State : RSDoneState :=
  { mOffset := 0, mChunkSize := 10000000, mReadSize := 65536,
    mReadTail := List.replicate 10 3, readOpOffset := 0,
    readOpNumBytes := 65536 }

/-- The buffer delivered by the reader in the C4 witness: 65600 bytes, at
least one whole checksum block together with the tail. -/
def c4Buffer : List Nat := List.replicate 65600 7

theorem CHECKSUM_BLOCKSIZE_eq : CHECKSUM_BLOCKSIZE = 65536 := by
  norm_num [CHECKSUM_BLOCKSIZE]

theorem kDefaultReplicationReadSize_eq : kDefaultReplicationReadSize = 1048576 := by
  norm_num [kDefaultReplicationReadSize, CHECKSUM_BLOCKSIZE, Nat.shiftLeft_eq]

/-- `HandleReadDone` on a successful read that overflows a checksum block and
reaches exactly `mChunkSize`: the split branch is taken. -/
theorem handleReadDone_split_eq (s : DirectReplicator)
    (hcancel : s.mCancelFlag = false)
    (hstatus : s.mReadOp.status = 0)
    (halign : s.mOffset % CHECKSUM_BLOCKSIZE = 0)
    (hlt : CHECKSUM_BLOCKSIZE < s.mReadOp.dataBuf.length)
    (hmod : s.mReadOp.dataBuf.length % CHECKSUM_BLOCKSIZE ≠ 0)
    (hend : s.mOffset + s.mReadOp.dataBuf.length = s.mChunkSize)
    (hck : s.mReadOp.checksum.length =
      (s.mReadOp.dataBuf.length + CHECKSUM_BLOCKSIZE - 1) / CHECKSUM_BLOCKSIZE) :
    ReplicatorImpl.HandleReadDone s = (splitS1 s, .submitWrite) := by
  have hne : s.mReadOp.checksum ≠ [] := by
    have h2 : 2 ≤ s.mReadOp.checksum.length := by
      rw [hck]; simp only [CHECKSUM_BLOCKSIZE] at hlt ⊢; omega
    intro h; rw [h] at h2; simp at h2
  have hoff : ¬ s.mChunkSize ≤ s.mOffset := by omega
  unfold ReplicatorImpl.HandleReadDone
  rw [if_neg (by simp [hcancel]), if_pos (le_of_eq hstatus.symm),
      if_neg (fun h => absurd (hend ▸ h.2) (lt_irrefl _)), if_neg hoff]
  unfold ReplicatorImpl.readDoneWrite
  rw [if_neg (by
        rintro (h1 | ⟨-, h2⟩)
        · exact h1 halign
        · exact h2 hck),
      if_pos ⟨hlt, hmod, hend⟩, if_neg hne]
  rfl

/-- `HandleWriteDone` after a full write whose end coincides with the retained
read's offset and a non-empty carried buffer: re-enter `HandleReadDone`. -/
theorem handleWriteDone_reenter_eq (t : DirectReplicator)
    (hcancel : t.mCancelFlag = false)
    (hoff : t.mReadOp.offset = t.mOffset + t.mWriteOp.numBytes)
    (hbuf : t.mReadOp.dataBuf ≠ []) :
    ReplicatorImpl.HandleWriteDone (diskWriteOk t) =
      ({ diskWriteOk t with mOffset := t.mOffset + t.mWriteOp.numBytes },
       .reenterReadDone) := by
  unfold ReplicatorImpl.HandleWriteDone diskWriteOk
  rw [if_neg (by simp [hcancel]), if_pos (by exact ⟨hoff, hbuf⟩)]

/-- `HandleWriteDone` after a full write with no pending carried buffer:
issue the next `Read`. -/
theorem handleWriteDone_nextRead_eq (t : DirectReplicator)
    (hcancel : t.mCancelFlag = false)
    (hnore : ¬(t.mReadOp.offset = t.mOffset + t.mWriteOp.numBytes ∧
      t.mReadOp.dataBuf ≠ [])) :
    ReplicatorImpl.HandleWriteDone (diskWriteOk t) =
      ReplicatorImpl.Read
        { diskWriteOk t with mOffset := t.mOffset + t.mWriteOp.numBytes } := by
  unfold ReplicatorImpl.HandleWriteDone diskWriteOk
  rw [if_neg (by simp [hcancel]), if_neg (by exact hnore)]

/-- `Read` at `mOffset = mChunkSize`: the replication is done, status 0. -/
theorem read_terminal_eq (s : DirectReplicator) (h : s.mOffset = s.mChunkSize) :
    ReplicatorImpl.Read s = ({ s with mDone := true }, .terminate 0) := by
  unfold ReplicatorImpl.Read
  rw [if_pos (le_of_eq h.symm), if_pos h]
  simp [h]

/-- `HandleReadDone` on a successful full read of at most one checksum block:
the whole buffer is written as-is. -/
theorem handleReadDone_small_eq (s : DirectReplicator)
    (hcancel : s.mCancelFlag = false)
    (hstatus : s.mReadOp.status = 0)
    (halign : s.mOffset % CHECKSUM_BLOCKSIZE = 0)
    (hle : s.mReadOp.dataBuf.length ≤ CHECKSUM_BLOCKSIZE)
    (hnshort : ¬(s.mReadOp.dataBuf.length < s.mReadOp.numBytes ∧
      s.mOffset + s.mReadOp.dataBuf.length < s.mChunkSize))
    (hoff : s.mOffset < s.mChunkSize)
    (hckok : ¬(s.mReadOp.checksum ≠ [] ∧ s.mReadOp.checksum.length ≠
      (s.mReadOp.dataBuf.length + CHECKSUM_BLOCKSIZE - 1) / CHECKSUM_BLOCKSIZE)) :
    ReplicatorImpl.HandleReadDone s =
      ({ s with
          mWriteOp :=
            { offset := s.mOffset, numBytes := s.mReadOp.dataBuf.length,
              numBytesIo := 0, status := 0, dataBuf := s.mReadOp.dataBuf,
              checksums := s.mReadOp.checksum },
          mReadOp := { s.mReadOp with dataBuf := [] } }, .submitWrite) := by
  unfold ReplicatorImpl.HandleReadDone
  rw [if_neg (by simp [hcancel]), if_pos (le_of_eq hstatus.symm),
      if_neg hnshort, if_neg (by omega)]
  unfold ReplicatorImpl.readDoneWrite
  rw [if_neg (by rintro (h1 | h2); exacts [h1 halign, hckok h2]),
      if_neg (by rintro ⟨h1, -⟩; omega), if_neg (by omega)]

/-- `HandleReadDone` on a successful block-aligned read larger than one
checksum block that does not end the chunk with a partial block: the whole
buffer is written, no split. -/
theorem handleReadDone_largeAligned_eq (s : DirectReplicator)
    (hcancel : s.mCancelFlag = false)
    (hstatus : s.mReadOp.status = 0)
    (halign : s.mOffset % CHECKSUM_BLOCKSIZE = 0)
    (hlt : CHECKSUM_BLOCKSIZE < s.mReadOp.dataBuf.length)
    (hmod0 : s.mReadOp.dataBuf.length % CHECKSUM_BLOCKSIZE = 0)
    (hnshort : ¬(s.mReadOp.dataBuf.length < s.mReadOp.numBytes ∧
      s.mOffset + s.mReadOp.dataBuf.length < s.mChunkSize))
    (hoff : s.mOffset < s.mChunkSize)
    (hckok : ¬(s.mReadOp.checksum ≠ [] ∧ s.mReadOp.checksum.length ≠
      (s.mReadOp.dataBuf.length + CHECKSUM_BLOCKSIZE - 1) / CHECKSUM_BLOCKSIZE)) :
    ReplicatorImpl.HandleReadDone s =
      ({ s with
          mWriteOp :=
            { offset := s.mOffset,
              numBytes := s.mReadOp.dataBuf.length -
                s.mReadOp.dataBuf.length % CHECKSUM_BLOCKSIZE,
              numBytesIo := 0, status := 0, dataBuf := s.mReadOp.dataBuf,
              checksums := s.mReadOp.checksum },
          mReadOp := { s.mReadOp with dataBuf := [] } }, .submitWrite) := by
  unfold ReplicatorImpl.HandleReadDone
  rw [if_neg (by simp [hcancel]), if_pos (le_of_eq hstatus.symm),
      if_neg hnshort, if_neg (by omega)]
  unfold ReplicatorImpl.readDoneWrite
  rw [if_neg (by rintro (h1 | h2); exacts [h1 halign, hckok h2]),
      if_neg (by rintro ⟨-, h2, -⟩; exact h2 hmod0), if_pos hlt]

/-- S2 step 1: the first `Read` issues a 1 MiB peer read at offset 0. -/
theorem s2step1 : ReplicatorImpl.Read (initialDirect s2ExampleChunkSize) =
    (s2R1, .enqueueRead) := by
  norm_num [initialDirect, ReplicatorImpl.Read, s2ExampleChunkSize, s2R1,
    kDefaultReplicationReadSize_eq, CHECKSUM_BLOCKSIZE_eq, Nat.min_def]

/-- S2 step 2: the first read completion submits the aligned 1 MiB write
at offset 0 (no split: the read is block-aligned). -/
theorem s2step2 : ReplicatorImpl.HandleReadDone (peerFill s2R1) =
    (s2R2, .submitWrite) := by
  have h1 : peerFill s2R1 =
      { mOffset := 0, mChunkSize := 1048593,
        mReadOp :=
          { offset := 0, numBytes := 1048576, numBytesIo := 1048576,
            status := 0, dataBuf := List.replicate 1048576 0,
            checksum := List.replicate 16 0,
            skipVerifyDiskChecksumFlag := true },
        mWriteOp :=
          { offset := 0, numBytes := 0, numBytesIo := 0, status := 0,
            dataBuf := [], checksums := [] },
        mDone := false, mCancelFlag := false } := by
    norm_num [peerFill, s2R1, CHECKSUM_BLOCKSIZE_eq]
  rw [h1, handleReadDone_largeAligned_eq _
    rfl rfl (by norm_num [CHECKSUM_BLOCKSIZE_eq])
    (by norm_num [CHECKSUM_BLOCKSIZE_eq, List.length_replicate])
    (by norm_num [CHECKSUM_BLOCKSIZE_eq, List.length_replicate])
    (by norm_num [List.length_replicate])
    (by norm_num)
    (by norm_num [CHECKSUM_BLOCKSIZE_eq, List.length_replicate])]
  norm_num [s2R2, CHECKSUM_BLOCKSIZE_eq, List.length_replicate]

/-- S2 step 3: the 1 MiB write completes; the next read of 17 bytes is
issued at offset 1 MiB. -/
theorem s2step3 : ReplicatorImpl.HandleWriteDone (diskWriteOk s2R2) =
    (s2R3, .enqueueRead) := by
  have h1 : diskWriteOk s2R2 =
      { s2R2 with mWriteOp := { s2R2.mWriteOp with
          status := 0, numBytesIo := 1048576 } } := by
    norm_num [diskWriteOk, s2R2]
  rw [h1]
  unfold ReplicatorImpl.HandleWriteDone
  rw [if_neg (by norm_num [s2R2]), if_neg (by norm_num [s2R2])]
  unfold ReplicatorImpl.Read
  rw [if_neg (by norm_num [s2R2])]
  norm_num [s2R2, s2R3, CHECKSUM_BLOCKSIZE_eq, kDefaultReplicationReadSize_eq,
    Nat.min_def]

/-- S2 step 4: the second read completion submits the 17-byte write at
offset 1 MiB (sub-block, written as-is). -/
theorem s2step4 : ReplicatorImpl.HandleReadDone (peerFill s2R3) =
    (s2R4, .submitWrite) := by
  have h1 : peerFill s2R3 =
      { mOffset := 1048576, mChunkSize := 1048593,
        mReadOp :=
          { offset := 1048576, numBytes := 17, numBytesIo := 17, status := 0,
            dataBuf := List.replicate 17 0, checksum := List.replicate 1 0,
            skipVerifyDiskChecksumFlag := true },
        mWriteOp :=
          { offset := 0, numBytes := 1048576, numBytesIo := 1048576, status := 0,
            dataBuf := List.replicate 1048576 0,
            checksums := List.replicate 16 0 },
        mDone := false, mCancelFlag := false } := by
    norm_num [peerFill, s2R3, CHECKSUM_BLOCKSIZE_eq]
  rw [h1, handleReadDone_small_eq _
    rfl rfl (by norm_num [CHECKSUM_BLOCKSIZE_eq])
    (by norm_num [CHECKSUM_BLOCKSIZE_eq, List.length_replicate])
    (by norm_num [List.length_replicate])
    (by norm_num)
    (by norm_num [CHECKSUM_BLOCKSIZE_eq, List.length_replicate])]
  norm_num [s2R4, List.length_replicate]

/-- S2 step 5: the 17-byte write completes; `mOffset` reaches exactly
`chunkSize = 1 MiB + 17` and the replication terminates with status 0. -/
theorem s2step5 : ReplicatorImpl.HandleWriteDone (diskWriteOk s2R4) =
    (s2R5, .terminate 0) := by
  have h1 : diskWriteOk s2R4 =
      { s2R4 with mWriteOp := { s2R4.mWriteOp with
          status := 0, numBytesIo := 17 } } := by
    norm_num [diskWriteOk, s2R4]
  rw [h1]
  unfold ReplicatorImpl.HandleWriteDone
  rw [if_neg (by norm_num [s2R4]), if_neg (by norm_num [s2R4])]
  unfold ReplicatorImpl.Read
  rw [if_pos (by norm_num [s2R4]), if_pos (by norm_num [s2R4])]
  norm_num [s2R4, s2R5]

/-- **C1**: In direct replication, when a peer read completes with `numRead`
bytes such that `numRead > CHECKSUM_BLOCK_SIZE`, `numRead` is not a multiple
of `CHECKSUM_BLOCK_SIZE`, and `offset + numRead == chunkSize`, the replicator
writes only the block-aligned first part of
`numRead - (numRead mod CHECKSUM_BLOCK_SIZE)` bytes with its checksums minus
the last (`splitS1`), retains the trailing `numRead mod CHECKSUM_BLOCK_SIZE`
bytes plus the last checksum, and after that write completes re-enters the
read-completion path with the carried tail, so the tail bytes are written in
the following iteration at the first part's end offset, reaching exactly
`chunkSize` (terminate with status 0, done).  Moreover the S2 example with
`chunkSize = 1 MiB + 17` produces exactly two writes: 1 MiB at offset 0, then
17 bytes at offset 1 MiB, and terminates with status 0 at exactly
`chunkSize`. -/
theorem C1_direct_tail_split :
    (∀ s : DirectReplicator,
      s.mCancelFlag = false →
      s.mReadOp.status = 0 →
      s.mOffset % CHECKSUM_BLOCKSIZE = 0 →
      CHECKSUM_BLOCKSIZE < s.mReadOp.dataBuf.length →
      s.mReadOp.dataBuf.length % CHECKSUM_BLOCKSIZE ≠ 0 →
      s.mOffset + s.mReadOp.dataBuf.length = s.mChunkSize →
      s.mReadOp.checksum.length =
        (s.mReadOp.dataBuf.length + CHECKSUM_BLOCKSIZE - 1) / CHECKSUM_BLOCKSIZE →
      (ReplicatorImpl.HandleReadDone s = (splitS1 s, .submitWrite) ∧
       (splitS1 s).mReadOp.dataBuf.length =
         s.mReadOp.dataBuf.length % CHECKSUM_BLOCKSIZE ∧
       ReplicatorImpl.HandleWriteDone (diskWriteOk (splitS1 s)) =
         (splitS2 s, .reenterReadDone) ∧
       ReplicatorImpl.HandleReadDone (splitS2 s) = (splitS3 s, .submitWrite) ∧
       (splitS3 s).mWriteOp.offset =
         s.mOffset + (s.mReadOp.dataBuf.length -
           s.mReadOp.dataBuf.length % CHECKSUM_BLOCKSIZE) ∧
       (splitS3 s).mWriteOp.numBytes =
         s.mReadOp.dataBuf.length % CHECKSUM_BLOCKSIZE ∧
       ReplicatorImpl.HandleWriteDone (diskWriteOk (splitS3 s)) =
         (splitS4 s, .terminate 0) ∧
       (splitS4 s).mOffset = s.mChunkSize ∧
       (splitS4 s).mDone = true)) ∧
    ReplicatorImpl.Read (initialDirect s2ExampleChunkSize) = (s2R1, .enqueueRead) ∧
    ReplicatorImpl.HandleReadDone (peerFill s2R1) = (s2R2, .submitWrite) ∧
    s2R2.mWriteOp.offset = 0 ∧ s2R2.mWriteOp.numBytes = 1048576 ∧
    ReplicatorImpl.HandleWriteDone (diskWriteOk s2R2) = (s2R3, .enqueueRead) ∧
    ReplicatorImpl.HandleReadDone (peerFill s2R3) = (s2R4, .submitWrite) ∧
    s2R4.mWriteOp.offset = 1048576 ∧ s2R4.mWriteOp.numBytes = 17 ∧
    ReplicatorImpl.HandleWriteDone (diskWriteOk s2R4) = (s2R5, .terminate 0) ∧
    s2R5.mOffset = s2ExampleChunkSize ∧ s2R5.mDone = true := by
  refine ⟨?_, s2step1, s2step2, rfl, rfl, s2step3, s2step4, rfl, rfl, s2step5,
    by norm_num [s2R5, s2ExampleChunkSize], rfl⟩
  intro s hcancel hstatus halign hlt hmod hend hck
  have h1 : ReplicatorImpl.HandleReadDone s = (splitS1 s, .submitWrite) :=
    handleReadDone_split_eq s hcancel hstatus halign hlt hmod hend hck
  have h2 : ReplicatorImpl.HandleWriteDone (diskWriteOk (splitS1 s)) =
      (splitS2 s, .reenterReadDone) := by
    exact handleWriteDone_reenter_eq (splitS1 s)
      (by simp [splitS1, hcancel])
      (by simp [splitS1])
      (by
        simp only [splitS1, Ne, List.drop_eq_nil_iff, not_le]
        simp only [CHECKSUM_BLOCKSIZE] at hmod hlt ⊢
        omega)
  have h3 : ReplicatorImpl.HandleReadDone (splitS2 s) = (splitS3 s, .submitWrite) := by
    exact handleReadDone_small_eq (splitS2 s)
      (by simp [splitS2, splitS1, diskWriteOk, hcancel])
      (by simp [splitS2, splitS1, diskWriteOk, hstatus])
      (by
        simp only [splitS2, splitS1, diskWriteOk]
        simp only [CHECKSUM_BLOCKSIZE] at halign ⊢
        omega)
      (by
        simp only [splitS2, splitS1, diskWriteOk, List.length_drop]
        simp only [CHECKSUM_BLOCKSIZE] at hlt ⊢
        omega)
      (by
        simp only [splitS2, splitS1, diskWriteOk, List.length_drop, not_and, not_lt]
        intro h
        omega)
      (by
        simp only [splitS2, splitS1, diskWriteOk]
        simp only [CHECKSUM_BLOCKSIZE] at hmod hlt ⊢
        omega)
      (by
        simp only [splitS2, splitS1, diskWriteOk, List.length_drop,
          List.length_singleton, ne_eq, not_and, not_not]
        intro h
        simp only [CHECKSUM_BLOCKSIZE] at hmod hlt ⊢
        omega)
  have h4 : ReplicatorImpl.HandleWriteDone (diskWriteOk (splitS3 s)) =
      (splitS4 s, .terminate 0) := by
    have hn := handleWriteDone_nextRead_eq (splitS3 s)
      (by simp [splitS3, splitS2, splitS1, diskWriteOk, hcancel])
      (by simp [splitS3])
    rw [hn, read_terminal_eq]
    · rfl
    · simp only [splitS3, splitS2, splitS1, diskWriteOk]
      simp only [List.length_drop]
      simp only [CHECKSUM_BLOCKSIZE] at hmod hlt hend ⊢
      omega
  refine ⟨h1, ?_, h2, h3, ?_, ?_, h4, ?_, by simp [splitS4]⟩
  · simp only [splitS1, List.length_drop]
    simp only [CHECKSUM_BLOCKSIZE] at hlt ⊢
    omega
  · simp [splitS3, splitS2, splitS1, diskWriteOk]
  · simp only [splitS3, splitS2, splitS1, diskWriteOk, List.length_drop]
    simp only [CHECKSUM_BLOCKSIZE] at hlt ⊢
    omega
  · simp only [splitS4, splitS3, splitS2, splitS1, diskWriteOk, List.length_drop]
    simp only [CHECKSUM_BLOCKSIZE] at hlt hmod hend ⊢
    omega

/-- Witness for C1: the split-and-carry chain evaluated at the concrete state
`c1WitnessState` (a read of `65553 = CHECKSUM_BLOCKSIZE + 17` bytes ending
exactly at `chunkSize`). -/
theorem C1_direct_tail_split_witness :
    (c1WitnessState.mCancelFlag = false ∧
     c1WitnessState.mReadOp.status = 0 ∧
     c1WitnessState.mOffset % CHECKSUM_BLOCKSIZE = 0 ∧
     CHECKSUM_BLOCKSIZE < c1WitnessState.mReadOp.dataBuf.length ∧
     c1WitnessState.mReadOp.dataBuf.length % CHECKSUM_BLOCKSIZE ≠ 0 ∧
     c1WitnessState.mOffset + c1WitnessState.mReadOp.dataBuf.length =
       c1WitnessState.mChunkSize ∧
     c1WitnessState.mReadOp.checksum.length =
       (c1WitnessState.mReadOp.dataBuf.length + CHECKSUM_BLOCKSIZE - 1) /
         CHECKSUM_BLOCKSIZE) ∧
    (ReplicatorImpl.HandleReadDone c1WitnessState =
       (splitS1 c1WitnessState, .submitWrite) ∧
     (splitS1 c1WitnessState).mReadOp.dataBuf.length =
       c1WitnessState.mReadOp.dataBuf.length % CHECKSUM_BLOCKSIZE ∧
     ReplicatorImpl.HandleWriteDone (diskWriteOk (splitS1 c1WitnessState)) =
       (splitS2 c1WitnessState, .reenterReadDone) ∧
     ReplicatorImpl.HandleReadDone (splitS2 c1WitnessState) =
       (splitS3 c1WitnessState, .submitWrite) ∧
     (splitS3 c1WitnessState).mWriteOp.offset =
       c1WitnessState.mOffset + (c1WitnessState.mReadOp.dataBuf.length -
         c1WitnessState.mReadOp.dataBuf.length % CHECKSUM_BLOCKSIZE) ∧
     (splitS3 c1WitnessState).mWriteOp.numBytes =
       c1WitnessState.mReadOp.dataBuf.length % CHECKSUM_BLOCKSIZE ∧
     ReplicatorImpl.HandleWriteDone (diskWriteOk (splitS3 c1WitnessState)) =
       (splitS4 c1WitnessState, .terminate 0) ∧
     (splitS4 c1WitnessState).mOffset = c1WitnessState.mChunkSize ∧
     (splitS4 c1WitnessState).mDone = true) :=
  ⟨⟨rfl, rfl,
    by show (0 : Nat) % CHECKSUM_BLOCKSIZE = 0; norm_num [CHECKSUM_BLOCKSIZE],
    by
      rw [show c1WitnessState.mReadOp.dataBuf = List.replicate 65553 (0 : Nat) from rfl,
        List.length_replicate]
      norm_num [CHECKSUM_BLOCKSIZE],
    by
      rw [show c1WitnessState.mReadOp.dataBuf = List.replicate 65553 (0 : Nat) from rfl,
        List.length_replicate]
      norm_num [CHECKSUM_BLOCKSIZE],
    by
      rw [show c1WitnessState.mReadOp.dataBuf = List.replicate 65553 (0 : Nat) from rfl,
        List.length_replicate]
      rfl,
    by
      rw [show c1WitnessState.mReadOp.dataBuf = List.replicate 65553 (0 : Nat) from rfl,
        show c1WitnessState.mReadOp.checksum = List.replicate 2 (0 : Nat) from rfl,
        List.length_replicate, List.length_replicate]
      norm_num [CHECKSUM_BLOCKSIZE]⟩,
   C1_direct_tail_split.1 c1WitnessState rfl rfl
    (by show (0 : Nat) % CHECKSUM_BLOCKSIZE = 0; norm_num [CHECKSUM_BLOCKSIZE])
    (by
      rw [show c1WitnessState.mReadOp.dataBuf = List.replicate 65553 (0 : Nat) from rfl,
        List.length_replicate]
      norm_num [CHECKSUM_BLOCKSIZE])
    (by
      rw [show c1WitnessState.mReadOp.dataBuf = List.replicate 65553 (0 : Nat) from rfl,
        List.length_replicate]
      norm_num [CHECKSUM_BLOCKSIZE])
    (by
      rw [show c1WitnessState.mReadOp.dataBuf = List.replicate 65553 (0 : Nat) from rfl,
        List.length_replicate]
      rfl)
    (by
      rw [show c1WitnessState.mReadOp.dataBuf = List.replicate 65553 (0 : Nat) from rfl,
        show c1WitnessState.mReadOp.checksum = List.replicate 2 (0 : Nat) from rfl,
        List.length_replicate, List.length_replicate]
      norm_num [CHECKSUM_BLOCKSIZE])⟩

/-- **C2**: a peer read failing with BadChecksum while the skip-disk-verify
optimization was on for that read is retried exactly once at the same offset
with disk-checksum verification enabled (`skipVerifyDiskChecksumFlag = false`);
when the flag is already off, any negative read status terminates the
replication with that status (which `Terminate`/`HandleReplicationDone`
preserve as the final `op.status`). -/
theorem C2_badchecksum_single_retry :
    (∀ s : DirectReplicator,
      s.mCancelFlag = false →
      s.mReadOp.skipVerifyDiskChecksumFlag = true →
      s.mReadOp.status = -EBADCKSUM →
      s.mReadOp.offset = s.mOffset →
      s.mOffset < s.mChunkSize →
      ReplicatorImpl.HandleReadDone s =
        ({ s with mReadOp := { s.mReadOp with
            skipVerifyDiskChecksumFlag := false,
            checksum := [], status := 0, offset := s.mOffset, numBytesIo := 0,
            numBytes := min (s.mChunkSize - s.mOffset) kDefaultReplicationReadSize,
            dataBuf := [] } }, .enqueueRead) ∧
      (ReplicatorImpl.HandleReadDone s).1.mReadOp.offset = s.mReadOp.offset) ∧
    (∀ s : DirectReplicator,
      s.mCancelFlag = false →
      s.mReadOp.skipVerifyDiskChecksumFlag = false →
      s.mReadOp.status < 0 →
      ReplicatorImpl.HandleReadDone s =
        ({ s with mDone := false }, .terminate s.mReadOp.status)) ∧
    (∀ (v status : Int), status < 0 →
      ReplicatorImpl.TerminateNonDoneRes status = status ∧
      (ReplicatorImpl.HandleReplicationDone false v
        (ReplicatorImpl.TerminateNonDoneRes status)).status = status) := by
  refine ⟨?_, ?_, ?_⟩
  · intro s hcancel hskip hst hofs hlt
    have hneg : s.mReadOp.status < 0 := by rw [hst]; norm_num [EBADCKSUM]
    have heq : ReplicatorImpl.HandleReadDone s =
        ({ s with mReadOp := { s.mReadOp with
            skipVerifyDiskChecksumFlag := false,
            checksum := [], status := 0, offset := s.mOffset, numBytesIo := 0,
            numBytes := min (s.mChunkSize - s.mOffset) kDefaultReplicationReadSize,
            dataBuf := [] } }, .enqueueRead) := by
      unfold ReplicatorImpl.HandleReadDone
      rw [if_neg (by simp [hcancel]), if_neg (by omega), if_pos (by exact ⟨hskip, hst⟩)]
      unfold ReplicatorImpl.Read
      rw [if_neg (by simp; omega)]
      simp
    exact ⟨heq, by rw [heq, hofs]⟩
  · intro s hcancel hskip hst
    unfold ReplicatorImpl.HandleReadDone
    rw [if_neg (by simp [hcancel]), if_neg (by omega),
        if_neg (by rintro ⟨h1, -⟩; rw [hskip] at h1; exact absurd h1 (by simp))]
    unfold ReplicatorImpl.readDoneTerminate
    rw [if_neg (by rintro ⟨-, h2⟩; omega)]
    have : decide (0 ≤ s.mReadOp.status) = false := by
      simp only [decide_eq_false_iff_not, not_le]; exact hst
    rw [this, Bool.and_false]
  · intro v status hst
    have h1 : ReplicatorImpl.TerminateNonDoneRes status = status := by
      unfold ReplicatorImpl.TerminateNonDoneRes
      rw [if_pos hst]
    refine ⟨h1, ?_⟩
    rw [h1]
    unfold ReplicatorImpl.HandleReplicationDone
    simp only [ReplicateChunkOpResult.mk.injEq]
    rw [if_neg (by omega)]

/-- Witness for C2: the BadChecksum retry and the terminal second failure,
evaluated at concrete states. -/
theorem C2_badchecksum_single_retry_witness :
    (c2RetryState.mCancelFlag = false ∧
     c2RetryState.mReadOp.skipVerifyDiskChecksumFlag = true ∧
     c2RetryState.mReadOp.status = -EBADCKSUM ∧
     c2RetryState.mReadOp.offset = c2RetryState.mOffset ∧
     c2RetryState.mOffset < c2RetryState.mChunkSize ∧
     (ReplicatorImpl.HandleReadDone c2RetryState =
        ({ c2RetryState with mReadOp := { c2RetryState.mReadOp with
            skipVerifyDiskChecksumFlag := false,
            checksum := [], status := 0, offset := c2RetryState.mOffset,
            numBytesIo := 0,
            numBytes := min (c2RetryState.mChunkSize - c2RetryState.mOffset)
              kDefaultReplicationReadSize,
            dataBuf := [] } }, .enqueueRead) ∧
      (ReplicatorImpl.HandleReadDone c2RetryState).1.mReadOp.offset =
        c2RetryState.mReadOp.offset)) ∧
    (c2FailState.mCancelFlag = false ∧
     c2FailState.mReadOp.skipVerifyDiskChecksumFlag = false ∧
     c2FailState.mReadOp.status < 0 ∧
     ReplicatorImpl.HandleReadDone c2FailState =
       ({ c2FailState with mDone := false }, .terminate c2FailState.mReadOp.status)) ∧
    ((-7 : Int) < 0 ∧
     ReplicatorImpl.TerminateNonDoneRes (-7) = -7 ∧
     (ReplicatorImpl.HandleReplicationDone false 3
       (ReplicatorImpl.TerminateNonDoneRes (-7))).status = -7) :=
  ⟨⟨rfl, rfl, rfl, rfl, by decide,
    C2_badchecksum_single_retry.1 c2RetryState rfl rfl rfl rfl (by decide)⟩,
   ⟨rfl, rfl, by decide,
    C2_badchecksum_single_retry.2.1 c2FailState rfl rfl (by decide)⟩,
   ⟨by decide,
    (C2_badchecksum_single_retry.2.2 3 (-7) (by decide)).1,
    (C2_badchecksum_single_retry.2.2 3 (-7) (by decide)).2⟩⟩

/-- **C3 (counterexample)**: `Cancel(1, -1)` on a registry holding a live
replicator for chunk 1 whose effective target version is 5 returns `true`,
although the effective target version (5) does not match the argument (-1).
So "returns true iff ... effective target version matches the targetVersion
argument" fails as stated for negative arguments. -/
theorem C3_cancel_version_match_counterexample :
    (Replicator.Cancel c3Registry 1 (-1)).1 = true ∧
    c3Registry.lookup 1 = some (some c3Entry) ∧
    c3Entry.effectiveTargetVersion = some 5 ∧
    (5 : Int) ≠ -1 := by decide

/-- **C3 (amended)**: `Cancel(chunkId, targetVersion)` returns true iff the
registry holds a live (non-null) replicator for `chunkId` and, **when
`targetVersion ≥ 0`**, its effective target version equals `targetVersion`
(a negative `targetVersion` matches any live replicator).  When it returns
true the entry has been removed from the registry and that replicator
cancelled; when it returns false the registry is unchanged and nothing is
cancelled. -/
theorem C3_cancel_amended : ∀ (reg : InFlightReplications) (chunkId v : Int),
    ((Replicator.Cancel reg chunkId v).1 = true ↔
      ∃ r : RegReplicator, reg.lookup chunkId = some (some r) ∧
        (0 ≤ v → r.effectiveTargetVersion = some v)) ∧
    ((Replicator.Cancel reg chunkId v).1 = true →
      (Replicator.Cancel reg chunkId v).2.1 =
        reg.eraseP (fun p => p.1 == chunkId) ∧
      ∃ r : RegReplicator, reg.lookup chunkId = some (some r) ∧
        (Replicator.Cancel reg chunkId v).2.2 = some r) ∧
    ((Replicator.Cancel reg chunkId v).1 = false →
      (Replicator.Cancel reg chunkId v).2.1 = reg ∧
      (Replicator.Cancel reg chunkId v).2.2 = none) := by
  intro reg chunkId v
  unfold Replicator.Cancel ReplicatorImpl.CancelChunkReplication
  cases h : reg.lookup chunkId with
  | none => simp [h]
  | some o =>
    cases o with
    | none => simp [h]
    | some r =>
      by_cases hv : 0 ≤ v
      · cases hot : r.ownerTargetVersion with
        | none =>
          simp [h, hv, hot, RegReplicator.effectiveTargetVersion]
        | some tv =>
          by_cases heq : (if tv < 0 then r.mChunkVersion else tv) = v
          · simp [h, hv, hot, heq, RegReplicator.effectiveTargetVersion]
          · simp [h, hv, hot, heq, RegReplicator.effectiveTargetVersion]
      · cases hot : r.ownerTargetVersion with
        | none => simp [h, hv, hot]
        | some tv => simp [h, hv, hot]

/-- Witness for C3 (amended): evaluated at the concrete registry
`c3Registry` with a matching non-negative target version 5. -/
theorem C3_cancel_amended_witness :
    ((Replicator.Cancel c3Registry 1 5).1 = true ↔
      ∃ r : RegReplicator, c3Registry.lookup 1 = some (some r) ∧
        (0 ≤ (5 : Int) → r.effectiveTargetVersion = some 5)) ∧
    ((Replicator.Cancel c3Registry 1 5).1 = true →
      (Replicator.Cancel c3Registry 1 5).2.1 =
        c3Registry.eraseP (fun p => p.1 == 1) ∧
      ∃ r : RegReplicator, c3Registry.lookup 1 = some (some r) ∧
        (Replicator.Cancel c3Registry 1 5).2.2 = some r) ∧
    ((Replicator.Cancel c3Registry 1 5).1 = false →
      (Replicator.Cancel c3Registry 1 5).2.1 = c3Registry ∧
      (Replicator.Cancel c3Registry 1 5).2.2 = none) :=
  C3_cancel_amended c3Registry 1 5

/-- **C9**: for a chunk with a live registered replicator, `Cancel` with any
negative `targetVersion` cancels it and returns true regardless of its
effective target version: the version comparison is applied only when the
argument is `≥ 0`. -/
theorem C9_negative_targetVersion_cancels :
    ∀ (reg : InFlightReplications) (chunkId v : Int) (r : RegReplicator),
      v < 0 → reg.lookup chunkId = some (some r) →
      Replicator.Cancel reg chunkId v =
        (true, reg.eraseP (fun p => p.1 == chunkId), some r) := by
  intro reg chunkId v r hv h
  unfold Replicator.Cancel ReplicatorImpl.CancelChunkReplication
  simp only [h]
  rw [if_neg (by simp; omega)]

/-- Witness for C9: cancelling chunk 1 of `c3Registry` with target version
-1 although the live replicator's effective target version is 5. -/
theorem C9_negative_targetVersion_cancels_witness :
    ((-1 : Int) < 0 ∧ c3Registry.lookup 1 = some (some c3Entry)) ∧
    Replicator.Cancel c3Registry 1 (-1) =
      (true, c3Registry.eraseP (fun p => p.1 == 1), some c3Entry) :=
  ⟨⟨by decide, by decide⟩,
   C9_negative_targetVersion_cancels c3Registry 1 (-1) c3Entry
     (by decide) (by decide)⟩

/-- **C5**: on every completion delivered via `SubmitOpResponse`,
`op.chunkVersion` equals the finalized chunk version (`mChunkVersion`) when
the replication succeeded (terminal status `≥ 0` and not cancelled), and
equals `-1` on every cancel or failure exit
(`HandleReplicationDone`, Replicator.cc:685). -/
theorem C5_completion_chunk_version :
    ∀ (mCancelFlag : Bool) (mChunkVersion status : Int),
      ((mCancelFlag = false ∧ 0 ≤ status) →
        (ReplicatorImpl.HandleReplicationDone mCancelFlag mChunkVersion
          status).chunkVersion = mChunkVersion) ∧
      ((mCancelFlag = true ∨ status < 0) →
        (ReplicatorImpl.HandleReplicationDone mCancelFlag mChunkVersion
          status).chunkVersion = -1) := by
  intro mCancelFlag mChunkVersion status
  unfold ReplicatorImpl.HandleReplicationDone
  constructor
  · intro h
    simp only []
    rw [if_pos h]
  · intro h
    simp only []
    rw [if_neg (by
      rintro ⟨h1, h2⟩
      rcases h with h | h
      · rw [h1] at h; exact absurd h (by simp)
      · omega)]

/-- Witness for C5: a successful completion keeps the finalized version 7;
a cancelled completion reports -1. -/
theorem C5_completion_chunk_version_witness :
    ((false = false ∧ (0 : Int) ≤ 0) ∧
     (ReplicatorImpl.HandleReplicationDone false 7 0).chunkVersion = 7) ∧
    ((true = true ∨ (0 : Int) < 0) ∧
     (ReplicatorImpl.HandleReplicationDone true 7 0).chunkVersion = -1) :=
  ⟨⟨⟨rfl, by decide⟩, (C5_completion_chunk_version false 7 0).1 ⟨rfl, by decide⟩⟩,
   ⟨Or.inl rfl, (C5_completion_chunk_version true 7 0).2 (Or.inl rfl)⟩⟩

/-- **C10**: the status stored into `op.status` at completion is never
positive: `HandleReplicationDone` maps any non-negative terminal status to 0,
and `Terminate` converts a positive incoming status to its negation (and 0 to
-1) on every non-done exit, so the metadata server only observes
`op.status = 0` on success or a negative error code. -/
theorem C10_op_status_never_positive :
    (∀ (mCancelFlag : Bool) (mChunkVersion status : Int),
      (ReplicatorImpl.HandleReplicationDone mCancelFlag mChunkVersion
        status).status ≤ 0) ∧
    (∀ (mCancelFlag : Bool) (mChunkVersion status : Int), 0 ≤ status →
      (ReplicatorImpl.HandleReplicationDone mCancelFlag mChunkVersion
        status).status = 0) ∧
    (∀ status : Int, 0 < status →
      ReplicatorImpl.TerminateNonDoneRes status = -status) ∧
    ReplicatorImpl.TerminateNonDoneRes 0 = -1 ∧
    (∀ status : Int, ReplicatorImpl.TerminateNonDoneRes status < 0) ∧
    (∀ (mDone mCancelFlag : Bool) (mChunkVersion status : Int),
      ¬(mDone = true ∧ mCancelFlag = false) →
      ReplicatorImpl.Terminate mDone mCancelFlag mChunkVersion status =
        .replicationDone (ReplicatorImpl.TerminateNonDoneRes status)) := by
  refine ⟨?_, ?_, ?_, ?_, ?_, ?_⟩
  · intro c v status
    unfold ReplicatorImpl.HandleReplicationDone
    simp only []
    split_ifs with h <;> omega
  · intro c v status h
    unfold ReplicatorImpl.HandleReplicationDone
    simp only []
    rw [if_pos h]
  · intro status h
    unfold ReplicatorImpl.TerminateNonDoneRes
    rw [if_neg (by omega), if_neg (by omega)]
  · rfl
  · intro status
    unfold ReplicatorImpl.TerminateNonDoneRes
    split_ifs with h1 h2 <;> omega
  · intro mDone mCancelFlag v status h
    unfold ReplicatorImpl.Terminate
    rw [if_neg (by
      rintro ⟨h1, h2⟩
      exact h ⟨h1, by revert h2; cases mCancelFlag <;> simp⟩)]

/-- Witness for C10: concrete statuses through `HandleReplicationDone` and
`Terminate`. -/
theorem C10_op_status_never_positive_witness :
    (ReplicatorImpl.HandleReplicationDone false 7 5).status ≤ 0 ∧
    ((0 : Int) ≤ 5 ∧ (ReplicatorImpl.HandleReplicationDone false 7 5).status = 0) ∧
    ((0 : Int) < 5 ∧ ReplicatorImpl.TerminateNonDoneRes 5 = -5) ∧
    ReplicatorImpl.TerminateNonDoneRes (-3) < 0 ∧
    (¬(false = true ∧ true = false) ∧
     ReplicatorImpl.Terminate false true 7 5 =
       .replicationDone (ReplicatorImpl.TerminateNonDoneRes 5)) :=
  ⟨C10_op_status_never_positive.1 false 7 5,
   ⟨by decide, C10_op_status_never_positive.2.1 false 7 5 (by decide)⟩,
   ⟨by decide, C10_op_status_never_positive.2.2.1 5 (by decide)⟩,
   C10_op_status_never_positive.2.2.2.2.1 (-3),
   ⟨by decide, C10_op_status_never_positive.2.2.2.2.2 false true 7 5 (by decide)⟩⟩

/-- **C6**: on `Run`, a replicator requests
`max(16 KiB, GetBufferBytesRequired())` bytes: `kDefaultReplicationReadSize`
(1 MiB rounded up to a multiple of `CHECKSUM_BLOCKSIZE`) in direct mode and
`mReadSize * (numStripes + 1)` in recovery mode; if that amount is over the
client quota, the replication terminates with `ENOMEM` (stored as
`op.status = -ENOMEM`) without starting the size probe. -/
theorem C6_buffer_admission :
    ReplicatorImpl.GetBufferBytesRequired = kDefaultReplicationReadSize ∧
    kDefaultReplicationReadSize % CHECKSUM_BLOCKSIZE = 0 ∧
    (1 <<< 20) ≤ kDefaultReplicationReadSize ∧
    kDefaultReplicationReadSize < (1 <<< 20) + CHECKSUM_BLOCKSIZE ∧
    (∀ (mReadSize numStripes : Nat),
      RSReplicatorImpl.GetBufferBytesRequired mReadSize (some numStripes) =
        mReadSize * (numStripes + 1)) ∧
    kChunkHeaderSize = 16 * 1024 ∧
    (∀ (bytesRequired : Nat) (isOverQuota getForDiskIoOk : Nat → Bool),
      isOverQuota (max kChunkHeaderSize bytesRequired) = true →
      ReplicatorImpl.Run bytesRequired isOverQuota getForDiskIoOk =
        (max kChunkHeaderSize bytesRequired, .terminated Enomem)) ∧
    (∀ mChunkVersion : Int,
      (ReplicatorImpl.HandleReplicationDone false mChunkVersion
        (ReplicatorImpl.TerminateNonDoneRes Enomem)).status = -Enomem) := by
  refine ⟨rfl,
    by norm_num [kDefaultReplicationReadSize_eq, CHECKSUM_BLOCKSIZE_eq],
    by norm_num [kDefaultReplicationReadSize_eq, Nat.shiftLeft_eq],
    by norm_num [kDefaultReplicationReadSize_eq, CHECKSUM_BLOCKSIZE_eq,
      Nat.shiftLeft_eq],
    fun _ _ => rfl, rfl, ?_, ?_⟩
  · intro bytesRequired isOverQuota getForDiskIoOk h
    unfold ReplicatorImpl.Run
    rw [if_pos h]
  · intro v
    norm_num [ReplicatorImpl.TerminateNonDoneRes,
      ReplicatorImpl.HandleReplicationDone, Enomem]

/-- Witness for C6: an always-over-quota buffer manager terminates the run
with `ENOMEM` for a direct-mode request. -/
theorem C6_buffer_admission_witness :
    ((fun _ : Nat => true)
       (max kChunkHeaderSize ReplicatorImpl.GetBufferBytesRequired) = true ∧
     ReplicatorImpl.Run ReplicatorImpl.GetBufferBytesRequired
       (fun _ => true) (fun _ => false) =
       (max kChunkHeaderSize ReplicatorImpl.GetBufferBytesRequired,
        .terminated Enomem)) ∧
    (ReplicatorImpl.HandleReplicationDone false 7
      (ReplicatorImpl.TerminateNonDoneRes Enomem)).status = -Enomem :=
  ⟨⟨rfl, C6_buffer_admission.2.2.2.2.2.2.1
      ReplicatorImpl.GetBufferBytesRequired (fun _ => true) (fun _ => false) rfl⟩,
   C6_buffer_admission.2.2.2.2.2.2.2 7⟩

/-- **C7**: when `op.sourceLocation` is invalid (RS recovery routing) and the
access header is well-formed, `Replicator::Run` takes the `rsInvalid` path —
set `op.status = -EINVAL` and submit the response without creating a
replicator — exactly when the RS parameters do not all hold:
`chunkOffset ≥ 0` and a multiple of `CHUNKSIZE`, `striperType = RS`,
`numStripes > 0`, `numRecoveryStripes > 0`,
`MIN_STRIPE_SIZE ≤ stripeSize ≤ MAX_STRIPE_SIZE`,
`CHUNKSIZE % stripeSize = 0`, `stripeSize % STRIPE_ALIGNMENT = 0`, and
`op.location.port > 0`. -/
theorem C7_rs_parameter_validation :
    ∀ (L : RSLimits) (op : ReplicateChunkOpReq) (tokenLen keyLen : Nat),
      op.locationIsValid = false →
      decide (0 < keyLen) = decide (0 < tokenLen) →
      (((Replicator.Run tokenLen keyLen L op).1 = .rsInvalid ↔
        ¬(0 ≤ op.chunkOffset ∧ op.chunkOffset % L.KFS_CHUNKSIZE = 0 ∧
          op.striperType = KFS_STRIPED_FILE_TYPE_RS ∧ 0 < op.numStripes ∧
          0 < op.numRecoveryStripes ∧ L.KFS_MIN_STRIPE_SIZE ≤ op.stripeSize ∧
          op.stripeSize ≤ L.KFS_MAX_STRIPE_SIZE ∧
          L.KFS_CHUNKSIZE % op.stripeSize = 0 ∧
          op.stripeSize % L.KFS_STRIPE_ALIGNMENT = 0 ∧ 0 < op.locationPort)) ∧
       ((Replicator.Run tokenLen keyLen L op).1 = .rsInvalid →
        (Replicator.Run tokenLen keyLen L op).2 = some (-Einval))) := by
  intro L op tokenLen keyLen hloc hheader
  unfold Replicator.Run
  rw [if_neg (by rw [hheader]; simp), if_neg (by rw [hloc]; simp)]
  by_cases hinv : rsRecoveryRequestInvalid L op = true
  · rw [if_pos hinv]
    refine ⟨?_, fun _ => rfl⟩
    simp only [true_iff]
    unfold rsRecoveryRequestInvalid at hinv
    simp only [Bool.or_eq_true, decide_eq_true_eq] at hinv
    intro hall
    obtain ⟨a1, a2, a3, a4, a5, a6, a7, a8, a9, a10⟩ := hall
    rcases hinv with ((((((((h | h) | h) | h) | h) | h) | h) | h) | h) | h
    · exact absurd a1 (not_le.mpr h)
    · exact h a2
    · exact h a3
    · exact absurd a4 (not_lt.mpr h)
    · exact absurd a5 (not_lt.mpr h)
    · exact absurd a6 (not_le.mpr h)
    · exact absurd a7 (not_le.mpr h)
    · exact h a8
    · exact h a9
    · exact absurd a10 (not_lt.mpr h)
  · rw [if_neg hinv]
    refine ⟨⟨fun h => absurd h (by simp), fun h => ?_⟩, fun h => absurd h (by simp)⟩
    exfalso
    apply h
    unfold rsRecoveryRequestInvalid at hinv
    simp only [Bool.or_eq_true, decide_eq_true_eq, not_or, not_lt, not_le,
      not_not, and_assoc] at hinv
    exact hinv

/-- Witness for C7: an RS recovery request with `numStripes = 0` takes the
`rsInvalid` path. -/
theorem C7_rs_parameter_validation_witness :
    (c7BadOp.locationIsValid = false ∧
     decide (0 < (0 : Nat)) = decide (0 < (0 : Nat))) ∧
    (((Replicator.Run 0 0 c7Limits c7BadOp).1 = .rsInvalid ↔
      ¬(0 ≤ c7BadOp.chunkOffset ∧
        c7BadOp.chunkOffset % c7Limits.KFS_CHUNKSIZE = 0 ∧
        c7BadOp.striperType = KFS_STRIPED_FILE_TYPE_RS ∧
        0 < c7BadOp.numStripes ∧ 0 < c7BadOp.numRecoveryStripes ∧
        c7Limits.KFS_MIN_STRIPE_SIZE ≤ c7BadOp.stripeSize ∧
        c7BadOp.stripeSize ≤ c7Limits.KFS_MAX_STRIPE_SIZE ∧
        c7Limits.KFS_CHUNKSIZE % c7BadOp.stripeSize = 0 ∧
        c7BadOp.stripeSize % c7Limits.KFS_STRIPE_ALIGNMENT = 0 ∧
        0 < c7BadOp.locationPort)) ∧
     ((Replicator.Run 0 0 c7Limits c7BadOp).1 = .rsInvalid →
      (Replicator.Run 0 0 c7Limits c7BadOp).2 = some (-Einval))) :=
  ⟨⟨rfl, rfl⟩, C7_rs_parameter_validation c7Limits c7BadOp 0 0 rfl rfl⟩

/-- **C8**: `SetParameters` reads the single configuration key
`chunkServer.rsReader.meta.idleTimeoutSec` to set both the metadata-client
idle timeout and the reset-connection-on-op-timeout flag: the computed
parameters depend on the properties only through that one key, so no separate
key exists for the reset-on-op-timeout option. -/
theorem C8_single_meta_idle_timeout_key :
    ∀ (props : Properties) (cur : RSReaderMetaParams),
      ((RSReplicatorImpl.SetMetaTimeoutParameters props
          cur).sRSReaderMetaIdleTimeoutSec =
        Properties.getValue props "chunkServer.rsReader.meta.idleTimeoutSec"
          cur.sRSReaderMetaIdleTimeoutSec) ∧
      ((RSReplicatorImpl.SetMetaTimeoutParameters props
          cur).sRSReaderMetaResetConnectionOnOpTimeoutFlag =
        decide (Properties.getValue props
          "chunkServer.rsReader.meta.idleTimeoutSec"
          (if cur.sRSReaderMetaResetConnectionOnOpTimeoutFlag then 1 else 0) ≠ 0)) ∧
      (∀ props2 : Properties,
        props.lookup "chunkServer.rsReader.meta.idleTimeoutSec" =
          props2.lookup "chunkServer.rsReader.meta.idleTimeoutSec" →
        RSReplicatorImpl.SetMetaTimeoutParameters props cur =
          RSReplicatorImpl.SetMetaTimeoutParameters props2 cur) := by
  intro props cur
  refine ⟨rfl, rfl, ?_⟩
  intro props2 h
  unfold RSReplicatorImpl.SetMetaTimeoutParameters Properties.getValue
  rw [h]

/-- Witness for C8: with the idle-timeout key set to 0, both the idle timeout
and the reset flag change together; a property list differing only in other
keys yields the same parameters. -/
theorem C8_single_meta_idle_timeout_key_witness :
    ((RSReplicatorImpl.SetMetaTimeoutParameters
        [("chunkServer.rsReader.meta.idleTimeoutSec", 0)]
        { sRSReaderMetaIdleTimeoutSec := 300,
          sRSReaderMetaResetConnectionOnOpTimeoutFlag :=
            true }).sRSReaderMetaIdleTimeoutSec =
      Properties.getValue [("chunkServer.rsReader.meta.idleTimeoutSec", 0)]
        "chunkServer.rsReader.meta.idleTimeoutSec" 300) ∧
    ((RSReplicatorImpl.SetMetaTimeoutParameters
        [("chunkServer.rsReader.meta.idleTimeoutSec", 0)]
        { sRSReaderMetaIdleTimeoutSec := 300,
          sRSReaderMetaResetConnectionOnOpTimeoutFlag :=
            true }).sRSReaderMetaResetConnectionOnOpTimeoutFlag =
      decide (Properties.getValue [("chunkServer.rsReader.meta.idleTimeoutSec", 0)]
        "chunkServer.rsReader.meta.idleTimeoutSec" (if true then 1 else 0) ≠ 0)) ∧
    ([("chunkServer.rsReader.meta.idleTimeoutSec", (0 : Int))].lookup
        "chunkServer.rsReader.meta.idleTimeoutSec" =
      [("other.key", 99), ("chunkServer.rsReader.meta.idleTimeoutSec", (0 : Int))].lookup
        "chunkServer.rsReader.meta.idleTimeoutSec" ∧
     RSReplicatorImpl.SetMetaTimeoutParameters
        [("chunkServer.rsReader.meta.idleTimeoutSec", 0)]
        { sRSReaderMetaIdleTimeoutSec := 300,
          sRSReaderMetaResetConnectionOnOpTimeoutFlag := true } =
      RSReplicatorImpl.SetMetaTimeoutParameters
        [("other.key", 99), ("chunkServer.rsReader.meta.idleTimeoutSec", 0)]
        { sRSReaderMetaIdleTimeoutSec := 300,
          sRSReaderMetaResetConnectionOnOpTimeoutFlag := true }) :=
  ⟨(C8_single_meta_idle_timeout_key
      [("chunkServer.rsReader.meta.idleTimeoutSec", 0)]
      { sRSReaderMetaIdleTimeoutSec := 300,
        sRSReaderMetaResetConnectionOnOpTimeoutFlag := true }).1,
   (C8_single_meta_idle_timeout_key
      [("chunkServer.rsReader.meta.idleTimeoutSec", 0)]
      { sRSReaderMetaIdleTimeoutSec := 300,
        sRSReaderMetaResetConnectionOnOpTimeoutFlag := true }).2.1,
   by decide,
   (C8_single_meta_idle_timeout_key
      [("chunkServer.rsReader.meta.idleTimeoutSec", 0)]
      { sRSReaderMetaIdleTimeoutSec := 300,
        sRSReaderMetaResetConnectionOnOpTimeoutFlag := true }).2.2
     [("other.key", 99), ("chunkServer.rsReader.meta.idleTimeoutSec", 0)]
     (by decide)⟩

/-- `DoneReadOk` when the read is not at end-of-chunk and whole blocks are
available: whole checksum blocks move to the write buffer, the sub-block
remainder stays in `mReadTail`, `mChunkSize` is unchanged. -/
theorem rsDoneReadOk_noEnd (s : RSDoneState) (inBuffer : List Nat)
    (hrs : CHECKSUM_BLOCKSIZE ≤ s.mReadSize)
    (hnend : ¬(inBuffer.length < s.mReadSize ∨
      s.mChunkSize ≤ s.mOffset + s.mReadTail.length + s.mReadSize)) :
    (RSReplicatorImpl.DoneReadOk s inBuffer).writeBuf =
        (s.mReadTail ++ inBuffer).take
          ((s.mReadTail.length + inBuffer.length) /
            CHECKSUM_BLOCKSIZE * CHECKSUM_BLOCKSIZE) ∧
    (RSReplicatorImpl.DoneReadOk s inBuffer).mReadTail =
        (s.mReadTail ++ inBuffer).drop
          ((s.mReadTail.length + inBuffer.length) /
            CHECKSUM_BLOCKSIZE * CHECKSUM_BLOCKSIZE) ∧
    (RSReplicatorImpl.DoneReadOk s inBuffer).numBytes =
        (s.mReadTail.length + inBuffer.length) /
          CHECKSUM_BLOCKSIZE * CHECKSUM_BLOCKSIZE ∧
    (RSReplicatorImpl.DoneReadOk s inBuffer).numBytes % CHECKSUM_BLOCKSIZE = 0 ∧
    0 < (RSReplicatorImpl.DoneReadOk s inBuffer).numBytes ∧
    (RSReplicatorImpl.DoneReadOk s inBuffer).mReadTail.length <
        CHECKSUM_BLOCKSIZE ∧
    (RSReplicatorImpl.DoneReadOk s inBuffer).mChunkSize = s.mChunkSize ∧
    (RSReplicatorImpl.DoneReadOk s inBuffer).closeReader = false ∧
    (RSReplicatorImpl.DoneReadOk s inBuffer).reissueRead = false := by
  have hbuf : s.mReadSize ≤ inBuffer.length := by
    rcases not_or.mp hnend with ⟨h1, -⟩
    omega
  have hnmv0 : (s.mReadTail.length + inBuffer.length) /
      CHECKSUM_BLOCKSIZE * CHECKSUM_BLOCKSIZE ≠ 0 := by
    simp only [CHECKSUM_BLOCKSIZE] at hrs ⊢
    omega
  have htlt : s.mReadTail.length ≤
      (s.mReadTail.length + inBuffer.length) /
        CHECKSUM_BLOCKSIZE * CHECKSUM_BLOCKSIZE := by
    simp only [CHECKSUM_BLOCKSIZE] at hrs ⊢
    omega
  have etake : s.mReadTail.take s.mReadTail.length ++
      inBuffer.take ((s.mReadTail.length + inBuffer.length) /
        CHECKSUM_BLOCKSIZE * CHECKSUM_BLOCKSIZE - s.mReadTail.length) =
      (s.mReadTail ++ inBuffer).take
        ((s.mReadTail.length + inBuffer.length) /
          CHECKSUM_BLOCKSIZE * CHECKSUM_BLOCKSIZE) := by
    rw [List.take_append_eq_append_take, List.take_length,
      List.take_of_length_le htlt]
  have edrop : s.mReadTail.drop s.mReadTail.length ++
      inBuffer.drop ((s.mReadTail.length + inBuffer.length) /
        CHECKSUM_BLOCKSIZE * CHECKSUM_BLOCKSIZE - s.mReadTail.length) =
      (s.mReadTail ++ inBuffer).drop
        ((s.mReadTail.length + inBuffer.length) /
          CHECKSUM_BLOCKSIZE * CHECKSUM_BLOCKSIZE) := by
    rw [List.drop_append_eq_append_drop, List.drop_length,
      List.drop_eq_nil_iff.mpr htlt]
  have hlen : ((s.mReadTail ++ inBuffer).drop
      ((s.mReadTail.length + inBuffer.length) /
        CHECKSUM_BLOCKSIZE * CHECKSUM_BLOCKSIZE)).length < CHECKSUM_BLOCKSIZE := by
    rw [List.length_drop, List.length_append]
    simp only [CHECKSUM_BLOCKSIZE] at hrs ⊢
    omega
  unfold RSReplicatorImpl.DoneReadOk
  rw [if_neg hnend, if_neg hnmv0, min_eq_right htlt]
  refine ⟨etake, edrop, rfl, ?_, ?_, ?_, rfl, rfl, rfl⟩
  · simp only [CHECKSUM_BLOCKSIZE]
    omega
  · simp only [CHECKSUM_BLOCKSIZE] at hrs ⊢
    omega
  · exact edrop ▸ hlen


/-- Checksums are computed by `DoneReadOk` only when both `mReadOp.offset`
and `mReadOp.numBytes` are multiples of `CHECKSUM_BLOCKSIZE`. -/
theorem rsDoneReadOk_checksum_necessary (s : RSDoneState) (inBuffer : List Nat)
    (hck : (RSReplicatorImpl.DoneReadOk s inBuffer).checksumComputed = true) :
    s.readOpOffset % CHECKSUM_BLOCKSIZE = 0 ∧
    (RSReplicatorImpl.DoneReadOk s inBuffer).numBytes %
      CHECKSUM_BLOCKSIZE = 0 := by
  unfold RSReplicatorImpl.DoneReadOk at hck ⊢
  split_ifs at hck ⊢ with h1 h2
  · simp only [Bool.and_eq_true, decide_eq_true_eq] at hck
    exact ⟨hck.1.2, hck.2⟩
  · simp only [Bool.and_eq_true, decide_eq_true_eq] at hck
    exact ⟨hck.1.2, hck.2⟩

/-- **C4**: in RS recovery, a `Done` upcall with status 0: if the returned
buffer is smaller than `readSize` or the cursor (`mOffset + readTail + 
readSize`) has reached `chunkSize`, the result is end-of-chunk — `readTail`
is concatenated with the new bytes into the write buffer,
`chunkSize = offset + totalBytes`, and the reader begins closing; otherwise
only a whole-checksum-block head of `readTail ++ newBytes` moves into the
write buffer and the sub-block remainder is retained in `readTail`;
checksums are computed only when both `mReadOp.offset` and
`mReadOp.numBytes` are multiples of `CHECKSUM_BLOCK_SIZE`. -/
theorem C4_rs_done_accumulation :
    ∀ (s : RSDoneState) (inBuffer : List Nat),
      CHECKSUM_BLOCKSIZE ≤ s.mReadSize →
      ((inBuffer.length < s.mReadSize ∨
          s.mChunkSize ≤ s.mOffset + s.mReadTail.length + s.mReadSize) →
        ((RSReplicatorImpl.DoneReadOk s inBuffer).writeBuf =
            s.mReadTail ++ inBuffer ∧
         (RSReplicatorImpl.DoneReadOk s inBuffer).numBytes =
            s.mReadTail.length + inBuffer.length ∧
         (RSReplicatorImpl.DoneReadOk s inBuffer).mChunkSize =
            s.mOffset + (s.mReadTail.length + inBuffer.length) ∧
         (RSReplicatorImpl.DoneReadOk s inBuffer).closeReader = true ∧
         (RSReplicatorImpl.DoneReadOk s inBuffer).mReadTail = [] ∧
         (RSReplicatorImpl.DoneReadOk s inBuffer).reissueRead = false)) ∧
      (¬(inBuffer.length < s.mReadSize ∨
          s.mChunkSize ≤ s.mOffset + s.mReadTail.length + s.mReadSize) →
        ((RSReplicatorImpl.DoneReadOk s inBuffer).writeBuf =
            (s.mReadTail ++ inBuffer).take
              ((s.mReadTail.length + inBuffer.length) /
                CHECKSUM_BLOCKSIZE * CHECKSUM_BLOCKSIZE) ∧
         (RSReplicatorImpl.DoneReadOk s inBuffer).mReadTail =
            (s.mReadTail ++ inBuffer).drop
              ((s.mReadTail.length + inBuffer.length) /
                CHECKSUM_BLOCKSIZE * CHECKSUM_BLOCKSIZE) ∧
         (RSReplicatorImpl.DoneReadOk s inBuffer).numBytes =
            (s.mReadTail.length + inBuffer.length) /
              CHECKSUM_BLOCKSIZE * CHECKSUM_BLOCKSIZE ∧
         (RSReplicatorImpl.DoneReadOk s inBuffer).numBytes %
            CHECKSUM_BLOCKSIZE = 0 ∧
         0 < (RSReplicatorImpl.DoneReadOk s inBuffer).numBytes ∧
         (RSReplicatorImpl.DoneReadOk s inBuffer).mReadTail.length <
            CHECKSUM_BLOCKSIZE ∧
         (RSReplicatorImpl.DoneReadOk s inBuffer).mChunkSize = s.mChunkSize ∧
         (RSReplicatorImpl.DoneReadOk s inBuffer).closeReader = false ∧
         (RSReplicatorImpl.DoneReadOk s inBuffer).reissueRead = false)) ∧
      ((RSReplicatorImpl.DoneReadOk s inBuffer).checksumComputed = true →
        s.readOpOffset % CHECKSUM_BLOCKSIZE = 0 ∧
        (RSReplicatorImpl.DoneReadOk s inBuffer).numBytes %
          CHECKSUM_BLOCKSIZE = 0) := by
  intro s inBuffer hrs
  refine ⟨?_, fun hnend => rsDoneReadOk_noEnd s inBuffer hrs hnend,
    fun hck => rsDoneReadOk_checksum_necessary s inBuffer hck⟩
  intro hend
  unfold RSReplicatorImpl.DoneReadOk
  rw [if_pos hend]
  exact ⟨rfl, by simp [List.length_append], by simp [List.length_append],
    rfl, rfl, rfl⟩

/-- Witness for C4: the accumulation contract evaluated at `c4State` with a
65600-byte reader buffer. -/
theorem C4_rs_done_accumulation_witness :
    CHECKSUM_BLOCKSIZE ≤ c4State.mReadSize ∧
    (((c4Buffer.length < c4State.mReadSize ∨
        c4State.mChunkSize ≤ c4State.mOffset + c4State.mReadTail.length +
          c4State.mReadSize) →
      ((RSReplicatorImpl.DoneReadOk c4State c4Buffer).writeBuf =
          c4State.mReadTail ++ c4Buffer ∧
       (RSReplicatorImpl.DoneReadOk c4State c4Buffer).numBytes =
          c4State.mReadTail.length + c4Buffer.length ∧
       (RSReplicatorImpl.DoneReadOk c4State c4Buffer).mChunkSize =
          c4State.mOffset + (c4State.mReadTail.length + c4Buffer.length) ∧
       (RSReplicatorImpl.DoneReadOk c4State c4Buffer).closeReader = true ∧
       (RSReplicatorImpl.DoneReadOk c4State c4Buffer).mReadTail = [] ∧
       (RSReplicatorImpl.DoneReadOk c4State c4Buffer).reissueRead = false)) ∧
     (¬(c4Buffer.length < c4State.mReadSize ∨
        c4State.mChunkSize ≤ c4State.mOffset + c4State.mReadTail.length +
          c4State.mReadSize) →
      ((RSReplicatorImpl.DoneReadOk c4State c4Buffer).writeBuf =
          (c4State.mReadTail ++ c4Buffer).take
            ((c4State.mReadTail.length + c4Buffer.length) /
              CHECKSUM_BLOCKSIZE * CHECKSUM_BLOCKSIZE) ∧
       (RSReplicatorImpl.DoneReadOk c4State c4Buffer).mReadTail =
          (c4State.mReadTail ++ c4Buffer).drop
            ((c4State.mReadTail.length + c4Buffer.length) /
              CHECKSUM_BLOCKSIZE * CHECKSUM_BLOCKSIZE) ∧
       (RSReplicatorImpl.DoneReadOk c4State c4Buffer).numBytes =
          (c4State.mReadTail.length + c4Buffer.length) /
            CHECKSUM_BLOCKSIZE * CHECKSUM_BLOCKSIZE ∧
       (RSReplicatorImpl.DoneReadOk c4State c4Buffer).numBytes %
          CHECKSUM_BLOCKSIZE = 0 ∧
       0 < (RSReplicatorImpl.DoneReadOk c4State c4Buffer).numBytes ∧
       (RSReplicatorImpl.DoneReadOk c4State c4Buffer).mReadTail.length <
          CHECKSUM_BLOCKSIZE ∧
       (RSReplicatorImpl.DoneReadOk c4State c4Buffer).mChunkSize =
          c4State.mChunkSize ∧
       (RSReplicatorImpl.DoneReadOk c4State c4Buffer).closeReader = false ∧
       (RSReplicatorImpl.DoneReadOk c4State c4Buffer).reissueRead = false)) ∧
     ((RSReplicatorImpl.DoneReadOk c4State c4Buffer).checksumComputed = true →
      c4State.readOpOffset % CHECKSUM_BLOCKSIZE = 0 ∧
      (RSReplicatorImpl.DoneReadOk c4State c4Buffer).numBytes %
        CHECKSUM_BLOCKSIZE = 0)) :=
  ⟨by decide, C4_rs_done_accumulation c4State c4Buffer (by decide)⟩
